import Mathlib

/-!
Verification of the nconnect control plane: the `config` package (the
thread-safe `Config` store with write-through persistence) and the admin
server loop from `admin/client.go`.

Modelling conventions:
- Go slices become `List`, strings become `String`, machine integers become
  `Int` (no claim exercises overflow), and the one `float64` field
  (`TunaFeeRatio`) is carried as an opaque `Int`-valued slot, since no claim
  performs arithmetic on it.
- JSON marshalling is modelled at the document level: `marshalConfig`
  produces the ordered list of key/value pairs that `json.MarshalIndent`
  emits for the `Config` struct tags (including `omitempty` handling), and
  `unmarshalFields` models `json.Unmarshal` folding those pairs over a base
  struct value.  The byte-level rendering is represented by the two
  constants `configIndentUnit` and `configFilePerm` taken verbatim from
  `json.MarshalIndent(c, "", " ")` and `os.WriteFile(c.path, b, 0666)`.
  Go's nil-slice versus empty-slice distinction is not modelled (both are
  `[]`).
- The file system at the config's bound path is a `World`: the current file
  contents plus an environment flag saying whether a write attempt
  succeeds.  `Config.save` can then fail exactly as `os.WriteFile` can.
- The admin loop processes its inbound messages one at a time; a message
  carries the decode result of its JSON payload (`Option rpcReq`).
  Marshalling of the (abstract) response is total, mirroring that the
  encode-error branch of the loop is unreachable for the response types
  used.
-/

/-- A JSON value as it occurs in the nconnect config document: every field
of the Go `Config` struct is a string, a number, a bool, or a string
array. -/
inductive JValue where
  | str (s : String)
  | num (n : Int)
  | bool (b : Bool)
  | arr (xs : List String)
deriving DecidableEq

def JValue.asStr : JValue → Option String
  | .str s => some s
  | _ => none

def JValue.asNum : JValue → Option Int
  | .num n => some n
  | _ => none

def JValue.asBool : JValue → Option Bool
  | .bool b => some b
  | _ => none

def JValue.asArr : JValue → Option (List String)
  | .arr xs => some xs
  | _ => none

/-- The `Config` struct of the `config` package, fields in declaration
order.  The unexported `path` is the bound file path; the `sync.RWMutex`
is not modelled (the embedding is sequential, each method is one atomic
step, which is exactly the mutual exclusion the lock provides). -/
structure Config where
  path : String
  Identifier : String
  Seed : String
  SeedRPCServerAddr : List String
  ConnectRetries : Int
  Cipher : String
  Password : String
  DialTimeout : Int
  SessionWindowSize : Int
  LogFileName : String
  LogMaxSize : Int
  LogMaxBackups : Int
  LogAPIResponseSize : Int
  RemoteAdminAddr : List String
  RemoteTunnelAddr : List String
  LocalSocksAddr : String
  Tun : Bool
  TunAddr : String
  TunGateway : String
  TunMask : String
  TunDNS : List String
  TunName : String
  VPN : Bool
  VPNRoute : List String
  Tuna : Bool
  TunaMinBalance : String
  TunaMaxPrice : String
  TunaMinFee : String
  TunaFeeRatio : Int
  TunaCountry : List String
  TunaServiceName : String
  TunaAllowNknAddr : List String
  TunaDisallowNknAddr : List String
  TunaAllowIp : List String
  TunaDisallowIp : List String
  TunaDisableDownloadGeoDB : Bool
  TunaGeoDBPath : String
  TunaDisableMeasureBandwidth : Bool
  TunaMeasureStoragePath : String
  TunaMeasureBandwidthBytes : Int
  UDP : Bool
  UDPIdleTime : Int
  AdminIdentifier : String
  AdminHTTPAddr : String
  DisableAdminHTTPAPI : Bool
  WebRootPath : String
  Tags : List String
  Verbose : Bool
  AcceptAddrs : List String
  AdminAddrs : List String

/-- The Go zero value of `Config` (what `&Config{}` yields before
`json.Unmarshal` fills fields in). -/
def zeroConfig : Config :=
  { path := ""
    Identifier := ""
    Seed := ""
    SeedRPCServerAddr := []
    ConnectRetries := 0
    Cipher := ""
    Password := ""
    DialTimeout := 0
    SessionWindowSize := 0
    LogFileName := ""
    LogMaxSize := 0
    LogMaxBackups := 0
    LogAPIResponseSize := 0
    RemoteAdminAddr := []
    RemoteTunnelAddr := []
    LocalSocksAddr := ""
    Tun := false
    TunAddr := ""
    TunGateway := ""
    TunMask := ""
    TunDNS := []
    TunName := ""
    VPN := false
    VPNRoute := []
    Tuna := false
    TunaMinBalance := ""
    TunaMaxPrice := ""
    TunaMinFee := ""
    TunaFeeRatio := 0
    TunaCountry := []
    TunaServiceName := ""
    TunaAllowNknAddr := []
    TunaDisallowNknAddr := []
    TunaAllowIp := []
    TunaDisallowIp := []
    TunaDisableDownloadGeoDB := false
    TunaGeoDBPath := ""
    TunaDisableMeasureBandwidth := false
    TunaMeasureStoragePath := ""
    TunaMeasureBandwidthBytes := 0
    UDP := false
    UDPIdleTime := 0
    AdminIdentifier := ""
    AdminHTTPAddr := ""
    DisableAdminHTTPAPI := false
    WebRootPath := ""
    Tags := []
    Verbose := false
    AcceptAddrs := []
    AdminAddrs := [] }

/-- `NewConfig` constructs a config whose `AcceptAddrs` and `AdminAddrs`
are empty lists (Go allocates empty non-nil slices; the nil/empty
distinction is not modelled). -/
def NewConfig : Config := zeroConfig

/-- An `omitempty` string field: emitted only when non-empty. -/
def optStr (k v : String) : List (String × JValue) :=
  if v = "" then [] else [(k, JValue.str v)]

/-- An `omitempty` numeric field: emitted only when non-zero. -/
def optNum (k : String) (v : Int) : List (String × JValue) :=
  if v = 0 then [] else [(k, JValue.num v)]

/-- An `omitempty` bool field: emitted only when true. -/
def optBool (k : String) (v : Bool) : List (String × JValue) :=
  if v = false then [] else [(k, JValue.bool v)]

/-- An `omitempty` string-slice field: emitted only when non-empty. -/
def optArr (k : String) (v : List String) : List (String × JValue) :=
  if v = [] then [] else [(k, JValue.arr v)]

/-- The ordered key/value document `json.Marshal` produces for a `Config`,
following the struct tags: `identifier`, `seed`, `acceptAddrs` and
`adminAddrs` are always present, every other field carries `omitempty`. -/
def marshalConfig (c : Config) : List (String × JValue) :=
  [("identifier", JValue.str c.Identifier), ("seed", JValue.str c.Seed)]
  ++ optArr "seedRPCServerAddr" c.SeedRPCServerAddr
  ++ optNum "connectRetries" c.ConnectRetries
  ++ optStr "cipher" c.Cipher
  ++ optStr "password" c.Password
  ++ optNum "dialTimeout" c.DialTimeout
  ++ optNum "sessionWindowSize" c.SessionWindowSize
  ++ optStr "log" c.LogFileName
  ++ optNum "logMaxSize" c.LogMaxSize
  ++ optNum "logMaxBackups" c.LogMaxBackups
  ++ optNum "logAPIResponseSize" c.LogAPIResponseSize
  ++ optArr "remoteAdminAddr" c.RemoteAdminAddr
  ++ optArr "remoteTunnelAddr" c.RemoteTunnelAddr
  ++ optStr "localSocksAddr" c.LocalSocksAddr
  ++ optBool "tun" c.Tun
  ++ optStr "tunAddr" c.TunAddr
  ++ optStr "tunGateway" c.TunGateway
  ++ optStr "tunMask" c.TunMask
  ++ optArr "tunDNS" c.TunDNS
  ++ optStr "tunName" c.TunName
  ++ optBool "vpn" c.VPN
  ++ optArr "vpnRoute" c.VPNRoute
  ++ optBool "tuna" c.Tuna
  ++ optStr "tunaMinBalance" c.TunaMinBalance
  ++ optStr "tunaMaxPrice" c.TunaMaxPrice
  ++ optStr "tunaMinFee" c.TunaMinFee
  ++ optNum "tunaFeeRatio" c.TunaFeeRatio
  ++ optArr "tunaCountry" c.TunaCountry
  ++ optStr "tunaServiceName" c.TunaServiceName
  ++ optArr "tunaAllowNknAddr" c.TunaAllowNknAddr
  ++ optArr "tunaDisallowNknAddr" c.TunaDisallowNknAddr
  ++ optArr "tunaAllowIp" c.TunaAllowIp
  ++ optArr "tunaDisallowIp" c.TunaDisallowIp
  ++ optBool "tunaDisableDownloadGeoDB" c.TunaDisableDownloadGeoDB
  ++ optStr "tunaGeoDBPath" c.TunaGeoDBPath
  ++ optBool "tunaDisableMeasureBandwidth" c.TunaDisableMeasureBandwidth
  ++ optStr "tunaMeasureStoragePath" c.TunaMeasureStoragePath
  ++ optNum "tunaMeasureBandwidthBytes" c.TunaMeasureBandwidthBytes
  ++ optBool "udp" c.UDP
  ++ optNum "udpIdleTime" c.UDPIdleTime
  ++ optStr "adminIdentifier" c.AdminIdentifier
  ++ optStr "adminHttpAddr" c.AdminHTTPAddr
  ++ optBool "disableAdminHttpApi" c.DisableAdminHTTPAPI
  ++ optStr "webRootPath" c.WebRootPath
  ++ optArr "tags" c.Tags
  ++ optBool "verbose" c.Verbose
  ++ [("acceptAddrs", JValue.arr c.AcceptAddrs), ("adminAddrs", JValue.arr c.AdminAddrs)]

/-- One step of `json.Unmarshal` into a `Config`: set the field named by a
JSON key.  A known key with a wrongly-typed value is a decode error
(`none`); an unknown key is ignored, as in Go. -/
def setField (c : Config) (k : String) (v : JValue) : Option Config :=
  if k = "identifier" then v.asStr.map fun s => { c with Identifier := s }
  else if k = "seed" then v.asStr.map fun s => { c with Seed := s }
  else if k = "seedRPCServerAddr" then v.asArr.map fun xs => { c with SeedRPCServerAddr := xs }
  else if k = "connectRetries" then v.asNum.map fun n => { c with ConnectRetries := n }
  else if k = "cipher" then v.asStr.map fun s => { c with Cipher := s }
  else if k = "password" then v.asStr.map fun s => { c with Password := s }
  else if k = "dialTimeout" then v.asNum.map fun n => { c with DialTimeout := n }
  else if k = "sessionWindowSize" then v.asNum.map fun n => { c with SessionWindowSize := n }
  else if k = "log" then v.asStr.map fun s => { c with LogFileName := s }
  else if k = "logMaxSize" then v.asNum.map fun n => { c with LogMaxSize := n }
  else if k = "logMaxBackups" then v.asNum.map fun n => { c with LogMaxBackups := n }
  else if k = "logAPIResponseSize" then v.asNum.map fun n => { c with LogAPIResponseSize := n }
  else if k = "remoteAdminAddr" then v.asArr.map fun xs => { c with RemoteAdminAddr := xs }
  else if k = "remoteTunnelAddr" then v.asArr.map fun xs => { c with RemoteTunnelAddr := xs }
  else if k = "localSocksAddr" then v.asStr.map fun s => { c with LocalSocksAddr := s }
  else if k = "tun" then v.asBool.map fun b => { c with Tun := b }
  else if k = "tunAddr" then v.asStr.map fun s => { c with TunAddr := s }
  else if k = "tunGateway" then v.asStr.map fun s => { c with TunGateway := s }
  else if k = "tunMask" then v.asStr.map fun s => { c with TunMask := s }
  else if k = "tunDNS" then v.asArr.map fun xs => { c with TunDNS := xs }
  else if k = "tunName" then v.asStr.map fun s => { c with TunName := s }
  else if k = "vpn" then v.asBool.map fun b => { c with VPN := b }
  else if k = "vpnRoute" then v.asArr.map fun xs => { c with VPNRoute := xs }
  else if k = "tuna" then v.asBool.map fun b => { c with Tuna := b }
  else if k = "tunaMinBalance" then v.asStr.map fun s => { c with TunaMinBalance := s }
  else if k = "tunaMaxPrice" then v.asStr.map fun s => { c with TunaMaxPrice := s }
  else if k = "tunaMinFee" then v.asStr.map fun s => { c with TunaMinFee := s }
  else if k = "tunaFeeRatio" then v.asNum.map fun n => { c with TunaFeeRatio := n }
  else if k = "tunaCountry" then v.asArr.map fun xs => { c with TunaCountry := xs }
  else if k = "tunaServiceName" then v.asStr.map fun s => { c with TunaServiceName := s }
  else if k = "tunaAllowNknAddr" then v.asArr.map fun xs => { c with TunaAllowNknAddr := xs }
  else if k = "tunaDisallowNknAddr" then v.asArr.map fun xs => { c with TunaDisallowNknAddr := xs }
  else if k = "tunaAllowIp" then v.asArr.map fun xs => { c with TunaAllowIp := xs }
  else if k = "tunaDisallowIp" then v.asArr.map fun xs => { c with TunaDisallowIp := xs }
  else if k = "tunaDisableDownloadGeoDB" then v.asBool.map fun b => { c with TunaDisableDownloadGeoDB := b }
  else if k = "tunaGeoDBPath" then v.asStr.map fun s => { c with TunaGeoDBPath := s }
  else if k = "tunaDisableMeasureBandwidth" then v.asBool.map fun b => { c with TunaDisableMeasureBandwidth := b }
  else if k = "tunaMeasureStoragePath" then v.asStr.map fun s => { c with TunaMeasureStoragePath := s }
  else if k = "tunaMeasureBandwidthBytes" then v.asNum.map fun n => { c with TunaMeasureBandwidthBytes := n }
  else if k = "udp" then v.asBool.map fun b => { c with UDP := b }
  else if k = "udpIdleTime" then v.asNum.map fun n => { c with UDPIdleTime := n }
  else if k = "adminIdentifier" then v.asStr.map fun s => { c with AdminIdentifier := s }
  else if k = "adminHttpAddr" then v.asStr.map fun s => { c with AdminHTTPAddr := s }
  else if k = "disableAdminHttpApi" then v.asBool.map fun b => { c with DisableAdminHTTPAPI := b }
  else if k = "webRootPath" then v.asStr.map fun s => { c with WebRootPath := s }
  else if k = "tags" then v.asArr.map fun xs => { c with Tags := xs }
  else if k = "verbose" then v.asBool.map fun b => { c with Verbose := b }
  else if k = "acceptAddrs" then v.asArr.map fun xs => { c with AcceptAddrs := xs }
  else if k = "adminAddrs" then v.asArr.map fun xs => { c with AdminAddrs := xs }
  else some c

/-- `json.Unmarshal` of a key/value document into a base `Config` value:
fields are applied in document order; a type mismatch is a decode error. -/
def unmarshalFields (c : Config) : List (String × JValue) → Option Config
  | [] => some c
  | (k, v) :: rest =>
    match setField c k v with
    | none => none
    | some c' => unmarshalFields c' rest

/-- Contents of the file at the config's bound path. -/
inductive FileContents where
  | absent
  | unreadable
  | malformed
  | doc (d : List (String × JValue))
deriving DecidableEq

/-- The file at the bound path together with the environment's disposition:
`writeOk = false` makes the next write attempt fail (disk full,
permission), modelling the `os.WriteFile` error branch. -/
structure World where
  file : FileContents
  writeOk : Bool
deriving DecidableEq

/-- Permission bits passed to the file write, from
`os.WriteFile(c.path, b, 0666)`. -/
def configFilePerm : Nat := 0o666

/-- The indent unit passed to the encoder, from
`json.MarshalIndent(c, "", " ")`: one space per nesting level. -/
def configIndentUnit : String := " "

/-- `Config.save`: no-op when no path is bound; otherwise marshal and write
the document, propagating a write failure.  (`json.MarshalIndent` cannot
fail for this struct, so the marshal-error branch is unreachable.) -/
def Config.save (c : Config) (w : World) : World × Option String :=
  if c.path = "" then (w, none)
  else if w.writeOk then ({ w with file := .doc (marshalConfig c) }, none)
  else (w, some "write error")

/-- `Config.Save`: the exported explicit flush; takes the write lock and
calls `save`. -/
def Config.Save (c : Config) (w : World) : World × Option String :=
  c.save w

/-- `LoadOrNewConfig`: read the file at `path`; if absent, construct a
default config bound to `path`, persist it and return it; a read error or
malformed contents is a hard error; otherwise decode into a zero `Config`
bound to `path`. -/
def LoadOrNewConfig (path : String) (w : World) : Except String (Config × World) :=
  match w.file with
  | .absent =>
    let c := { NewConfig with path := path }
    match c.save w with
    | (_, some msg) => .error msg
    | (w', none) => .ok (c, w')
  | .unreadable => .error "read error"
  | .malformed => .error "decode error"
  | .doc d =>
    match unmarshalFields { zeroConfig with path := path } d with
    | none => .error "decode error"
    | some c => .ok (c, w)

/-- Modelled from the spec: `util.MergeStrings` is not under `src/`.  Spec
§4.1: "Add performs set-union (skip already-present entries, preserve
existing order, append new ones)"; an argument entry already present in the
(growing) result is skipped. -/
def mergeStrings (a : List String) : List String → List String
  | [] => a
  | s :: rest =>
    if s ∈ a then mergeStrings a rest
    else mergeStrings (a ++ [s]) rest

/-- Modelled from the spec: `util.RemoveStrings` is not under `src/`.  Spec
§4.1: "Remove performs set-difference preserving order of remaining
entries". -/
def removeStrings (a b : List String) : List String :=
  a.filter fun s => s ∉ b

def Config.GetAcceptAddrs (c : Config) : List String := c.AcceptAddrs

def Config.SetAcceptAddrs (c : Config) (acceptAddrs : List String) (w : World) :
    Config × World × Option String :=
  let c' := { c with AcceptAddrs := acceptAddrs }
  let r := c'.save w
  (c', r.1, r.2)

def Config.AddAcceptAddrs (c : Config) (acceptAddrs : List String) (w : World) :
    Config × World × Option String :=
  let c' := { c with AcceptAddrs := mergeStrings c.AcceptAddrs acceptAddrs }
  let r := c'.save w
  (c', r.1, r.2)

def Config.RemoveAcceptAddrs (c : Config) (acceptAddrs : List String) (w : World) :
    Config × World × Option String :=
  let c' := { c with AcceptAddrs := removeStrings c.AcceptAddrs acceptAddrs }
  let r := c'.save w
  (c', r.1, r.2)

def Config.GetAdminAddrs (c : Config) : List String := c.AdminAddrs

def Config.SetAdminAddrs (c : Config) (adminAddrs : List String) (w : World) :
    Config × World × Option String :=
  let c' := { c with AdminAddrs := adminAddrs }
  let r := c'.save w
  (c', r.1, r.2)

def Config.AddAdminAddrs (c : Config) (adminAddrs : List String) (w : World) :
    Config × World × Option String :=
  let c' := { c with AdminAddrs := mergeStrings c.AdminAddrs adminAddrs }
  let r := c'.save w
  (c', r.1, r.2)

def Config.RemoveAdminAddrs (c : Config) (adminAddrs : List String) (w : World) :
    Config × World × Option String :=
  let c' := { c with AdminAddrs := removeStrings c.AdminAddrs adminAddrs }
  let r := c'.save w
  (c', r.1, r.2)

def Config.SetAdminHTTPAPI (c : Config) (disable : Bool) (w : World) :
    Config × World × Option String :=
  let c' := { c with DisableAdminHTTPAPI := disable }
  let r := c'.save w
  (c', r.1, r.2)

/-- `ed25519.SeedSize`. -/
def ed25519SeedSize : Nat := 32

/-- The numeric value of one hex digit, as `encoding/hex` accepts them. -/
def hexDigitVal (ch : Char) : Option Nat :=
  if '0' ≤ ch ∧ ch ≤ '9' then some (ch.toNat - '0'.toNat)
  else if 'a' ≤ ch ∧ ch ≤ 'f' then some (ch.toNat - 'a'.toNat + 10)
  else if 'A' ≤ ch ∧ ch ≤ 'F' then some (ch.toNat - 'A'.toNat + 10)
  else none

/-- `hex.DecodeString`: decodes pairs of hex digits into bytes; odd length
or a non-hex character is an error. -/
def hexDecode : List Char → Option (List Nat)
  | [] => some []
  | [_] => none
  | a :: b :: rest =>
    match hexDigitVal a, hexDigitVal b with
    | some x, some y => (hexDecode rest).map fun l => (16 * x + y) :: l
    | _, _ => none

/-- `Config.SetSeed`: validate hex decodability and exact byte length
before storing; on success store the seed and persist.  The length error
reports `len(s)` (the hex string's length), as the source does. -/
def Config.SetSeed (c : Config) (s : String) (w : World) :
    Config × World × Option String :=
  match hexDecode s.data with
  | none => (c, w, some "invalid seed string, should be a hex string")
  | some seed =>
    if seed.length ≠ ed25519SeedSize then
      (c, w, some ("invalid seed string length " ++ toString s.length
        ++ ", should be " ++ toString (2 * ed25519SeedSize)))
    else
      let c' := { c with Seed := s }
      let r := c'.save w
      (c', r.1, r.2)

def Config.SetTunaConfig (c : Config) (serviceName : String)
    (country allowNknAddr disallowNknAddr allowIp disallowIp : List String)
    (w : World) : Config × World × Option String :=
  let c' := { c with
    TunaServiceName := serviceName
    TunaCountry := country
    TunaAllowNknAddr := allowNknAddr
    TunaDisallowNknAddr := disallowNknAddr
    TunaAllowIp := allowIp
    TunaDisallowIp := disallowIp }
  let r := c'.save w
  (c', r.1, r.2)

/-- Modelled from the spec: the admin allow-list patterns are regular
expressions (`util.MatchRegex` is not under `src/`); spec §4.3: "a pattern
matches if the sender address satisfies the pattern as a regular expression
anchored to the full string".  Patterns are carried as regex syntax trees
(pattern-string parsing is outside the model). -/
inductive Re where
  | emp
  | eps
  | chr (c : Char)
  | dot
  | alt (a b : Re)
  | cat (a b : Re)
  | star (a : Re)
deriving DecidableEq

def Re.nullable : Re → Bool
  | .emp => false
  | .eps => true
  | .chr _ => false
  | .dot => false
  | .alt a b => a.nullable || b.nullable
  | .cat a b => a.nullable && b.nullable
  | .star _ => true

def Re.deriv : Re → Char → Re
  | .emp, _ => .emp
  | .eps, _ => .emp
  | .chr c, x => if c = x then .eps else .emp
  | .dot, _ => .eps
  | .alt a b, x => .alt (a.deriv x) (b.deriv x)
  | .cat a b, x =>
    if a.nullable then .alt (.cat (a.deriv x) b) (b.deriv x)
    else .cat (a.deriv x) b
  | .star a, x => .cat (a.deriv x) (.star a)

/-- Whether `r` matches the whole character list (anchored match). -/
def reMatch : Re → List Char → Bool
  | r, [] => r.nullable
  | r, c :: cs => reMatch (r.deriv c) cs

/-- Modelled from the spec: `util.MatchRegex(patterns, s)` — true when some
pattern matches the full sender address. -/
def matchRegex (patterns : List Re) (s : String) : Bool :=
  patterns.any fun p => reMatch p s.data

/-- Modelled from the spec: the request envelope `rpcReq` is declared
elsewhere in the repository; spec §6 gives `{ "token": string,
<command-specific fields> }`, the command-specific part held abstract. -/
structure rpcReq where
  Token : String
  Params : String
deriving DecidableEq

/-- One inbound transport message as the admin loop sees it: the sender
address and the result of `json.Unmarshal` on its payload (`none` =
malformed envelope). -/
structure InMsg where
  Src : String
  Data : Option rpcReq
deriving DecidableEq

/-- One iteration of the receive loop of `StartClient`
(`admin/client.go`): unmarshal, drop malformed; drop when the sender
matches no admin pattern and the token is invalid; otherwise dispatch and
reply to the sender.  `tokenStore.IsValid` and `handleRequest` live outside
`src/` and are taken as parameters (the reply payload is the encoded
response).  Result `none` means `continue` without replying; `some (dst,
payload)` is the single reply sent. -/
def serverStep (adminAddrs : List Re) (isValid : String → Bool)
    (handleRequest : rpcReq → String) (msg : InMsg) : Option (String × String) :=
  match msg.Data with
  | none => none
  | some req =>
    if !matchRegex adminAddrs msg.Src && !isValid req.Token then none
    else some (msg.Src, handleRequest req)

/-- The receive loop of `StartClient` over a finite trace of inbound
messages: every message is handled to completion before the next is read,
and no message terminates the loop.  Returns the replies sent, in order. -/
def serverLoop (adminAddrs : List Re) (isValid : String → Bool)
    (handleRequest : rpcReq → String) : List InMsg → List (String × String)
  | [] => []
  | msg :: rest =>
    match serverStep adminAddrs isValid handleRequest msg with
    | none => serverLoop adminAddrs isValid handleRequest rest
    | some r => r :: serverLoop adminAddrs isValid handleRequest rest

/-! Chain lemmas: one `json.Unmarshal` step per marshalled field segment,
used to prove the marshal/unmarshal round trip. -/

lemma unmF_identifier (c0 : Config) (v : String) (l : List (String × JValue)) :
    unmarshalFields c0 (("identifier", JValue.str v) :: l)
      = unmarshalFields { c0 with Identifier := v } l := rfl

lemma unmF_seed (c0 : Config) (v : String) (l : List (String × JValue)) :
    unmarshalFields c0 (("seed", JValue.str v) :: l)
      = unmarshalFields { c0 with Seed := v } l := rfl

lemma unmF_seedRPCServerAddr (c0 : Config) (v : List String) (l : List (String × JValue)) :
    unmarshalFields c0 (optArr "seedRPCServerAddr" v ++ l)
      = unmarshalFields { c0 with SeedRPCServerAddr := if v = [] then c0.SeedRPCServerAddr else v } l := by
  by_cases hv : v = []
  · subst hv; rfl
  · simp only [optArr, if_neg hv]; rfl

lemma unmF_connectRetries (c0 : Config) (v : Int) (l : List (String × JValue)) :
    unmarshalFields c0 (optNum "connectRetries" v ++ l)
      = unmarshalFields { c0 with ConnectRetries := if v = 0 then c0.ConnectRetries else v } l := by
  by_cases hv : v = 0
  · subst hv; rfl
  · simp only [optNum, if_neg hv]; rfl

lemma unmF_cipher (c0 : Config) (v : String) (l : List (String × JValue)) :
    unmarshalFields c0 (optStr "cipher" v ++ l)
      = unmarshalFields { c0 with Cipher := if v = "" then c0.Cipher else v } l := by
  by_cases hv : v = ""
  · subst hv; rfl
  · simp only [optStr, if_neg hv]; rfl

lemma unmF_password (c0 : Config) (v : String) (l : List (String × JValue)) :
    unmarshalFields c0 (optStr "password" v ++ l)
      = unmarshalFields { c0 with Password := if v = "" then c0.Password else v } l := by
  by_cases hv : v = ""
  · subst hv; rfl
  · simp only [optStr, if_neg hv]; rfl

lemma unmF_dialTimeout (c0 : Config) (v : Int) (l : List (String × JValue)) :
    unmarshalFields c0 (optNum "dialTimeout" v ++ l)
      = unmarshalFields { c0 with DialTimeout := if v = 0 then c0.DialTimeout else v } l := by
  by_cases hv : v = 0
  · subst hv; rfl
  · simp only [optNum, if_neg hv]; rfl

lemma unmF_sessionWindowSize (c0 : Config) (v : Int) (l : List (String × JValue)) :
    unmarshalFields c0 (optNum "sessionWindowSize" v ++ l)
      = unmarshalFields { c0 with SessionWindowSize := if v = 0 then c0.SessionWindowSize else v } l := by
  by_cases hv : v = 0
  · subst hv; rfl
  · simp only [optNum, if_neg hv]; rfl

lemma unmF_log (c0 : Config) (v : String) (l : List (String × JValue)) :
    unmarshalFields c0 (optStr "log" v ++ l)
      = unmarshalFields { c0 with LogFileName := if v = "" then c0.LogFileName else v } l := by
  by_cases hv : v = ""
  · subst hv; rfl
  · simp only [optStr, if_neg hv]; rfl

lemma unmF_logMaxSize (c0 : Config) (v : Int) (l : List (String × JValue)) :
    unmarshalFields c0 (optNum "logMaxSize" v ++ l)
      = unmarshalFields { c0 with LogMaxSize := if v = 0 then c0.LogMaxSize else v } l := by
  by_cases hv : v = 0
  · subst hv; rfl
  · simp only [optNum, if_neg hv]; rfl

lemma unmF_logMaxBackups (c0 : Config) (v : Int) (l : List (String × JValue)) :
    unmarshalFields c0 (optNum "logMaxBackups" v ++ l)
      = unmarshalFields { c0 with LogMaxBackups := if v = 0 then c0.LogMaxBackups else v } l := by
  by_cases hv : v = 0
  · subst hv; rfl
  · simp only [optNum, if_neg hv]; rfl

lemma unmF_logAPIResponseSize (c0 : Config) (v : Int) (l : List (String × JValue)) :
    unmarshalFields c0 (optNum "logAPIResponseSize" v ++ l)
      = unmarshalFields { c0 with LogAPIResponseSize := if v = 0 then c0.LogAPIResponseSize else v } l := by
  by_cases hv : v = 0
  · subst hv; rfl
  · simp only [optNum, if_neg hv]; rfl

lemma unmF_remoteAdminAddr (c0 : Config) (v : List String) (l : List (String × JValue)) :
    unmarshalFields c0 (optArr "remoteAdminAddr" v ++ l)
      = unmarshalFields { c0 with RemoteAdminAddr := if v = [] then c0.RemoteAdminAddr else v } l := by
  by_cases hv : v = []
  · subst hv; rfl
  · simp only [optArr, if_neg hv]; rfl

lemma unmF_remoteTunnelAddr (c0 : Config) (v : List String) (l : List (String × JValue)) :
    unmarshalFields c0 (optArr "remoteTunnelAddr" v ++ l)
      = unmarshalFields { c0 with RemoteTunnelAddr := if v = [] then c0.RemoteTunnelAddr else v } l := by
  by_cases hv : v = []
  · subst hv; rfl
  · simp only [optArr, if_neg hv]; rfl

lemma unmF_localSocksAddr (c0 : Config) (v : String) (l : List (String × JValue)) :
    unmarshalFields c0 (optStr "localSocksAddr" v ++ l)
      = unmarshalFields { c0 with LocalSocksAddr := if v = "" then c0.LocalSocksAddr else v } l := by
  by_cases hv : v = ""
  · subst hv; rfl
  · simp only [optStr, if_neg hv]; rfl

lemma unmF_tun (c0 : Config) (v : Bool) (l : List (String × JValue)) :
    unmarshalFields c0 (optBool "tun" v ++ l)
      = unmarshalFields { c0 with Tun := if v = false then c0.Tun else v } l := by
  cases v <;> rfl

lemma unmF_tunAddr (c0 : Config) (v : String) (l : List (String × JValue)) :
    unmarshalFields c0 (optStr "tunAddr" v ++ l)
      = unmarshalFields { c0 with TunAddr := if v = "" then c0.TunAddr else v } l := by
  by_cases hv : v = ""
  · subst hv; rfl
  · simp only [optStr, if_neg hv]; rfl

lemma unmF_tunGateway (c0 : Config) (v : String) (l : List (String × JValue)) :
    unmarshalFields c0 (optStr "tunGateway" v ++ l)
      = unmarshalFields { c0 with TunGateway := if v = "" then c0.TunGateway else v } l := by
  by_cases hv : v = ""
  · subst hv; rfl
  · simp only [optStr, if_neg hv]; rfl

lemma unmF_tunMask (c0 : Config) (v : String) (l : List (String × JValue)) :
    unmarshalFields c0 (optStr "tunMask" v ++ l)
      = unmarshalFields { c0 with TunMask := if v = "" then c0.TunMask else v } l := by
  by_cases hv : v = ""
  · subst hv; rfl
  · simp only [optStr, if_neg hv]; rfl

lemma unmF_tunDNS (c0 : Config) (v : List String) (l : List (String × JValue)) :
    unmarshalFields c0 (optArr "tunDNS" v ++ l)
      = unmarshalFields { c0 with TunDNS := if v = [] then c0.TunDNS else v } l := by
  by_cases hv : v = []
  · subst hv; rfl
  · simp only [optArr, if_neg hv]; rfl

lemma unmF_tunName (c0 : Config) (v : String) (l : List (String × JValue)) :
    unmarshalFields c0 (optStr "tunName" v ++ l)
      = unmarshalFields { c0 with TunName := if v = "" then c0.TunName else v } l := by
  by_cases hv : v = ""
  · subst hv; rfl
  · simp only [optStr, if_neg hv]; rfl

lemma unmF_vpn (c0 : Config) (v : Bool) (l : List (String × JValue)) :
    unmarshalFields c0 (optBool "vpn" v ++ l)
      = unmarshalFields { c0 with VPN := if v = false then c0.VPN else v } l := by
  cases v <;> rfl

lemma unmF_vpnRoute (c0 : Config) (v : List String) (l : List (String × JValue)) :
    unmarshalFields c0 (optArr "vpnRoute" v ++ l)
      = unmarshalFields { c0 with VPNRoute := if v = [] then c0.VPNRoute else v } l := by
  by_cases hv : v = []
  · subst hv; rfl
  · simp only [optArr, if_neg hv]; rfl

lemma unmF_tuna (c0 : Config) (v : Bool) (l : List (String × JValue)) :
    unmarshalFields c0 (optBool "tuna" v ++ l)
      = unmarshalFields { c0 with Tuna := if v = false then c0.Tuna else v } l := by
  cases v <;> rfl

lemma unmF_tunaMinBalance (c0 : Config) (v : String) (l : List (String × JValue)) :
    unmarshalFields c0 (optStr "tunaMinBalance" v ++ l)
      = unmarshalFields { c0 with TunaMinBalance := if v = "" then c0.TunaMinBalance else v } l := by
  by_cases hv : v = ""
  · subst hv; rfl
  · simp only [optStr, if_neg hv]; rfl

lemma unmF_tunaMaxPrice (c0 : Config) (v : String) (l : List (String × JValue)) :
    unmarshalFields c0 (optStr "tunaMaxPrice" v ++ l)
      = unmarshalFields { c0 with TunaMaxPrice := if v = "" then c0.TunaMaxPrice else v } l := by
  by_cases hv : v = ""
  · subst hv; rfl
  · simp only [optStr, if_neg hv]; rfl

lemma unmF_tunaMinFee (c0 : Config) (v : String) (l : List (String × JValue)) :
    unmarshalFields c0 (optStr "tunaMinFee" v ++ l)
      = unmarshalFields { c0 with TunaMinFee := if v = "" then c0.TunaMinFee else v } l := by
  by_cases hv : v = ""
  · subst hv; rfl
  · simp only [optStr, if_neg hv]; rfl

lemma unmF_tunaFeeRatio (c0 : Config) (v : Int) (l : List (String × JValue)) :
    unmarshalFields c0 (optNum "tunaFeeRatio" v ++ l)
      = unmarshalFields { c0 with TunaFeeRatio := if v = 0 then c0.TunaFeeRatio else v } l := by
  by_cases hv : v = 0
  · subst hv; rfl
  · simp only [optNum, if_neg hv]; rfl

lemma unmF_tunaCountry (c0 : Config) (v : List String) (l : List (String × JValue)) :
    unmarshalFields c0 (optArr "tunaCountry" v ++ l)
      = unmarshalFields { c0 with TunaCountry := if v = [] then c0.TunaCountry else v } l := by
  by_cases hv : v = []
  · subst hv; rfl
  · simp only [optArr, if_neg hv]; rfl

lemma unmF_tunaServiceName (c0 : Config) (v : String) (l : List (String × JValue)) :
    unmarshalFields c0 (optStr "tunaServiceName" v ++ l)
      = unmarshalFields { c0 with TunaServiceName := if v = "" then c0.TunaServiceName else v } l := by
  by_cases hv : v = ""
  · subst hv; rfl
  · simp only [optStr, if_neg hv]; rfl

lemma unmF_tunaAllowNknAddr (c0 : Config) (v : List String) (l : List (String × JValue)) :
    unmarshalFields c0 (optArr "tunaAllowNknAddr" v ++ l)
      = unmarshalFields { c0 with TunaAllowNknAddr := if v = [] then c0.TunaAllowNknAddr else v } l := by
  by_cases hv : v = []
  · subst hv; rfl
  · simp only [optArr, if_neg hv]; rfl

lemma unmF_tunaDisallowNknAddr (c0 : Config) (v : List String) (l : List (String × JValue)) :
    unmarshalFields c0 (optArr "tunaDisallowNknAddr" v ++ l)
      = unmarshalFields { c0 with TunaDisallowNknAddr := if v = [] then c0.TunaDisallowNknAddr else v } l := by
  by_cases hv : v = []
  · subst hv; rfl
  · simp only [optArr, if_neg hv]; rfl

lemma unmF_tunaAllowIp (c0 : Config) (v : List String) (l : List (String × JValue)) :
    unmarshalFields c0 (optArr "tunaAllowIp" v ++ l)
      = unmarshalFields { c0 with TunaAllowIp := if v = [] then c0.TunaAllowIp else v } l := by
  by_cases hv : v = []
  · subst hv; rfl
  · simp only [optArr, if_neg hv]; rfl

lemma unmF_tunaDisallowIp (c0 : Config) (v : List String) (l : List (String × JValue)) :
    unmarshalFields c0 (optArr "tunaDisallowIp" v ++ l)
      = unmarshalFields { c0 with TunaDisallowIp := if v = [] then c0.TunaDisallowIp else v } l := by
  by_cases hv : v = []
  · subst hv; rfl
  · simp only [optArr, if_neg hv]; rfl

lemma unmF_tunaDisableDownloadGeoDB (c0 : Config) (v : Bool) (l : List (String × JValue)) :
    unmarshalFields c0 (optBool "tunaDisableDownloadGeoDB" v ++ l)
      = unmarshalFields { c0 with TunaDisableDownloadGeoDB := if v = false then c0.TunaDisableDownloadGeoDB else v } l := by
  cases v <;> rfl

lemma unmF_tunaGeoDBPath (c0 : Config) (v : String) (l : List (String × JValue)) :
    unmarshalFields c0 (optStr "tunaGeoDBPath" v ++ l)
      = unmarshalFields { c0 with TunaGeoDBPath := if v = "" then c0.TunaGeoDBPath else v } l := by
  by_cases hv : v = ""
  · subst hv; rfl
  · simp only [optStr, if_neg hv]; rfl

lemma unmF_tunaDisableMeasureBandwidth (c0 : Config) (v : Bool) (l : List (String × JValue)) :
    unmarshalFields c0 (optBool "tunaDisableMeasureBandwidth" v ++ l)
      = unmarshalFields { c0 with TunaDisableMeasureBandwidth := if v = false then c0.TunaDisableMeasureBandwidth else v } l := by
  cases v <;> rfl

lemma unmF_tunaMeasureStoragePath (c0 : Config) (v : String) (l : List (String × JValue)) :
    unmarshalFields c0 (optStr "tunaMeasureStoragePath" v ++ l)
      = unmarshalFields { c0 with TunaMeasureStoragePath := if v = "" then c0.TunaMeasureStoragePath else v } l := by
  by_cases hv : v = ""
  · subst hv; rfl
  · simp only [optStr, if_neg hv]; rfl

lemma unmF_tunaMeasureBandwidthBytes (c0 : Config) (v : Int) (l : List (String × JValue)) :
    unmarshalFields c0 (optNum "tunaMeasureBandwidthBytes" v ++ l)
      = unmarshalFields { c0 with TunaMeasureBandwidthBytes := if v = 0 then c0.TunaMeasureBandwidthBytes else v } l := by
  by_cases hv : v = 0
  · subst hv; rfl
  · simp only [optNum, if_neg hv]; rfl

lemma unmF_udp (c0 : Config) (v : Bool) (l : List (String × JValue)) :
    unmarshalFields c0 (optBool "udp" v ++ l)
      = unmarshalFields { c0 with UDP := if v = false then c0.UDP else v } l := by
  cases v <;> rfl

lemma unmF_udpIdleTime (c0 : Config) (v : Int) (l : List (String × JValue)) :
    unmarshalFields c0 (optNum "udpIdleTime" v ++ l)
      = unmarshalFields { c0 with UDPIdleTime := if v = 0 then c0.UDPIdleTime else v } l := by
  by_cases hv : v = 0
  · subst hv; rfl
  · simp only [optNum, if_neg hv]; rfl

lemma unmF_adminIdentifier (c0 : Config) (v : String) (l : List (String × JValue)) :
    unmarshalFields c0 (optStr "adminIdentifier" v ++ l)
      = unmarshalFields { c0 with AdminIdentifier := if v = "" then c0.AdminIdentifier else v } l := by
  by_cases hv : v = ""
  · subst hv; rfl
  · simp only [optStr, if_neg hv]; rfl

lemma unmF_adminHttpAddr (c0 : Config) (v : String) (l : List (String × JValue)) :
    unmarshalFields c0 (optStr "adminHttpAddr" v ++ l)
      = unmarshalFields { c0 with AdminHTTPAddr := if v = "" then c0.AdminHTTPAddr else v } l := by
  by_cases hv : v = ""
  · subst hv; rfl
  · simp only [optStr, if_neg hv]; rfl

lemma unmF_disableAdminHttpApi (c0 : Config) (v : Bool) (l : List (String × JValue)) :
    unmarshalFields c0 (optBool "disableAdminHttpApi" v ++ l)
      = unmarshalFields { c0 with DisableAdminHTTPAPI := if v = false then c0.DisableAdminHTTPAPI else v } l := by
  cases v <;> rfl

lemma unmF_webRootPath (c0 : Config) (v : String) (l : List (String × JValue)) :
    unmarshalFields c0 (optStr "webRootPath" v ++ l)
      = unmarshalFields { c0 with WebRootPath := if v = "" then c0.WebRootPath else v } l := by
  by_cases hv : v = ""
  · subst hv; rfl
  · simp only [optStr, if_neg hv]; rfl

lemma unmF_tags (c0 : Config) (v : List String) (l : List (String × JValue)) :
    unmarshalFields c0 (optArr "tags" v ++ l)
      = unmarshalFields { c0 with Tags := if v = [] then c0.Tags else v } l := by
  by_cases hv : v = []
  · subst hv; rfl
  · simp only [optArr, if_neg hv]; rfl

lemma unmF_verbose (c0 : Config) (v : Bool) (l : List (String × JValue)) :
    unmarshalFields c0 (optBool "verbose" v ++ l)
      = unmarshalFields { c0 with Verbose := if v = false then c0.Verbose else v } l := by
  cases v <;> rfl

lemma unmF_acceptAddrs (c0 : Config) (v : List String) (l : List (String × JValue)) :
    unmarshalFields c0 (("acceptAddrs", JValue.arr v) :: l)
      = unmarshalFields { c0 with AcceptAddrs := v } l := rfl

lemma unmF_adminAddrs (c0 : Config) (v : List String) (l : List (String × JValue)) :
    unmarshalFields c0 (("adminAddrs", JValue.arr v) :: l)
      = unmarshalFields { c0 with AdminAddrs := v } l := rfl

/-- Collapse `if x = z then z else x` to `x`. -/
lemma ite_self_of_eq {α : Type} [DecidableEq α] (x z : α) :
    (if x = z then z else x) = x := by
  by_cases h : x = z
  · rw [if_pos h, h]
  · rw [if_neg h]

/-- Round trip: `json.Unmarshal` of the marshalled document over a zero
`Config` bound to `p` restores every field of `c` (with `path` bound to
`p`). -/
theorem unmarshal_marshalConfig (c : Config) (p : String) :
    unmarshalFields { zeroConfig with path := p } (marshalConfig c)
      = some { c with path := p } := by
  simp only [marshalConfig, List.append_assoc, List.cons_append, List.nil_append]
  rw [unmF_identifier, unmF_seed, unmF_seedRPCServerAddr, unmF_connectRetries, unmF_cipher, unmF_password, unmF_dialTimeout, unmF_sessionWindowSize, unmF_log, unmF_logMaxSize, unmF_logMaxBackups, unmF_logAPIResponseSize, unmF_remoteAdminAddr, unmF_remoteTunnelAddr, unmF_localSocksAddr, unmF_tun, unmF_tunAddr, unmF_tunGateway, unmF_tunMask, unmF_tunDNS, unmF_tunName, unmF_vpn, unmF_vpnRoute, unmF_tuna, unmF_tunaMinBalance, unmF_tunaMaxPrice, unmF_tunaMinFee, unmF_tunaFeeRatio, unmF_tunaCountry, unmF_tunaServiceName, unmF_tunaAllowNknAddr, unmF_tunaDisallowNknAddr, unmF_tunaAllowIp, unmF_tunaDisallowIp, unmF_tunaDisableDownloadGeoDB, unmF_tunaGeoDBPath, unmF_tunaDisableMeasureBandwidth, unmF_tunaMeasureStoragePath, unmF_tunaMeasureBandwidthBytes, unmF_udp, unmF_udpIdleTime, unmF_adminIdentifier, unmF_adminHttpAddr, unmF_disableAdminHttpApi, unmF_webRootPath, unmF_tags, unmF_verbose, unmF_acceptAddrs, unmF_adminAddrs]
  simp only [unmarshalFields, zeroConfig, ite_self_of_eq]

/-! Properties of the modelled list-set operations and of hex decoding. -/

lemma mergeStrings_charact (b a : List String) :
    ∃ t, mergeStrings a b = a ++ t ∧ t.Sublist b ∧ (∀ x ∈ t, x ∉ a) ∧ t.Nodup := by
  induction b generalizing a with
  | nil => exact ⟨[], by simp [mergeStrings]⟩
  | cons s rest ih =>
    by_cases hs : s ∈ a
    · obtain ⟨t, h1, h2, h3, h4⟩ := ih a
      exact ⟨t, by rw [mergeStrings, if_pos hs, h1], h2.cons _, h3, h4⟩
    · obtain ⟨t, h1, h2, h3, h4⟩ := ih (a ++ [s])
      refine ⟨s :: t, ?_, h2.cons₂ _, ?_, ?_⟩
      · rw [mergeStrings, if_neg hs, h1, List.append_assoc]
        rfl
      · intro x hx
        rcases List.mem_cons.mp hx with rfl | hx'
        · exact hs
        · intro hxa
          exact h3 x hx' (List.mem_append_left _ hxa)
      · refine List.nodup_cons.mpr ⟨?_, h4⟩
        intro hst
        exact h3 s hst (List.mem_append_right _ (List.mem_singleton.mpr rfl))

lemma mem_mergeStrings (a b : List String) (x : String) :
    x ∈ mergeStrings a b ↔ x ∈ a ∨ x ∈ b := by
  induction b generalizing a with
  | nil => simp [mergeStrings]
  | cons s rest ih =>
    by_cases hs : s ∈ a
    · rw [mergeStrings, if_pos hs, ih]
      constructor
      · rintro (h | h)
        · exact Or.inl h
        · exact Or.inr (List.mem_cons_of_mem _ h)
      · rintro (h | h)
        · exact Or.inl h
        · rcases List.mem_cons.mp h with rfl | h'
          · exact Or.inl hs
          · exact Or.inr h'
    · rw [mergeStrings, if_neg hs, ih]
      simp only [List.mem_append, List.mem_singleton, List.mem_cons]
      tauto

lemma mergeStrings_nodup (a b : List String) (h : a.Nodup) :
    (mergeStrings a b).Nodup := by
  obtain ⟨t, h1, -, h3, h4⟩ := mergeStrings_charact b a
  rw [h1]
  exact h.append h4 fun x hx hxt => h3 x hxt hx

lemma mem_removeStrings (a b : List String) (x : String) :
    x ∈ removeStrings a b ↔ x ∈ a ∧ x ∉ b := by
  simp [removeStrings]

lemma removeStrings_nodup (a b : List String) (h : a.Nodup) :
    (removeStrings a b).Nodup := h.filter _

lemma hexDecode_ok_aux :
    ∀ (n : Nat) (l : List Char), l.length ≤ n → l.length % 2 = 0 →
      (∀ ch ∈ l, (hexDigitVal ch).isSome) →
      ∃ bs, hexDecode l = some bs ∧ 2 * bs.length = l.length := by
  intro n
  induction n with
  | zero =>
    intro l hl _ _
    rw [List.length_eq_zero.mp (Nat.le_zero.mp hl)]
    exact ⟨[], rfl, rfl⟩
  | succ n ih =>
    intro l hl h2 hh
    rcases l with _ | ⟨a, _ | ⟨b, rest⟩⟩
    · exact ⟨[], rfl, rfl⟩
    · simp at h2
    · obtain ⟨x, hx⟩ := Option.isSome_iff_exists.mp (hh a (by simp))
      obtain ⟨y, hy⟩ := Option.isSome_iff_exists.mp (hh b (by simp))
      have hrl : rest.length ≤ n := by
        simp only [List.length_cons] at hl
        omega
      have h2' : rest.length % 2 = 0 := by
        simp only [List.length_cons] at h2
        omega
      obtain ⟨bs, hbs, hlen⟩ := ih rest hrl h2' fun ch hch => hh ch (by simp [hch])
      refine ⟨(16 * x + y) :: bs, ?_, ?_⟩
      · simp [hexDecode, hx, hy, hbs]
      · simp only [List.length_cons]
        omega

lemma hexDecode_ok (l : List Char) (h2 : l.length % 2 = 0)
    (hh : ∀ ch ∈ l, (hexDigitVal ch).isSome) :
    ∃ bs, hexDecode l = some bs ∧ 2 * bs.length = l.length :=
  hexDecode_ok_aux l.length l le_rfl h2 hh

set_option maxHeartbeats 1000000 in
lemma setField_path (c0 : Config) (k : String) (v : JValue) (c1 : Config)
    (h : setField c0 k v = some c1) : c1.path = c0.path := by
  by_cases h1 : k = "identifier"
  · subst h1
    obtain ⟨s, -, rfl⟩ := Option.map_eq_some'.mp h
    rfl
  by_cases h2 : k = "seed"
  · subst h2
    obtain ⟨s, -, rfl⟩ := Option.map_eq_some'.mp h
    rfl
  by_cases h3 : k = "seedRPCServerAddr"
  · subst h3
    obtain ⟨s, -, rfl⟩ := Option.map_eq_some'.mp h
    rfl
  by_cases h4 : k = "connectRetries"
  · subst h4
    obtain ⟨s, -, rfl⟩ := Option.map_eq_some'.mp h
    rfl
  by_cases h5 : k = "cipher"
  · subst h5
    obtain ⟨s, -, rfl⟩ := Option.map_eq_some'.mp h
    rfl
  by_cases h6 : k = "password"
  · subst h6
    obtain ⟨s, -, rfl⟩ := Option.map_eq_some'.mp h
    rfl
  by_cases h7 : k = "dialTimeout"
  · subst h7
    obtain ⟨s, -, rfl⟩ := Option.map_eq_some'.mp h
    rfl
  by_cases h8 : k = "sessionWindowSize"
  · subst h8
    obtain ⟨s, -, rfl⟩ := Option.map_eq_some'.mp h
    rfl
  by_cases h9 : k = "log"
  · subst h9
    obtain ⟨s, -, rfl⟩ := Option.map_eq_some'.mp h
    rfl
  by_cases h10 : k = "logMaxSize"
  · subst h10
    obtain ⟨s, -, rfl⟩ := Option.map_eq_some'.mp h
    rfl
  by_cases h11 : k = "logMaxBackups"
  · subst h11
    obtain ⟨s, -, rfl⟩ := Option.map_eq_some'.mp h
    rfl
  by_cases h12 : k = "logAPIResponseSize"
  · subst h12
    obtain ⟨s, -, rfl⟩ := Option.map_eq_some'.mp h
    rfl
  by_cases h13 : k = "remoteAdminAddr"
  · subst h13
    obtain ⟨s, -, rfl⟩ := Option.map_eq_some'.mp h
    rfl
  by_cases h14 : k = "remoteTunnelAddr"
  · subst h14
    obtain ⟨s, -, rfl⟩ := Option.map_eq_some'.mp h
    rfl
  by_cases h15 : k = "localSocksAddr"
  · subst h15
    obtain ⟨s, -, rfl⟩ := Option.map_eq_some'.mp h
    rfl
  by_cases h16 : k = "tun"
  · subst h16
    obtain ⟨s, -, rfl⟩ := Option.map_eq_some'.mp h
    rfl
  by_cases h17 : k = "tunAddr"
  · subst h17
    obtain ⟨s, -, rfl⟩ := Option.map_eq_some'.mp h
    rfl
  by_cases h18 : k = "tunGateway"
  · subst h18
    obtain ⟨s, -, rfl⟩ := Option.map_eq_some'.mp h
    rfl
  by_cases h19 : k = "tunMask"
  · subst h19
    obtain ⟨s, -, rfl⟩ := Option.map_eq_some'.mp h
    rfl
  by_cases h20 : k = "tunDNS"
  · subst h20
    obtain ⟨s, -, rfl⟩ := Option.map_eq_some'.mp h
    rfl
  by_cases h21 : k = "tunName"
  · subst h21
    obtain ⟨s, -, rfl⟩ := Option.map_eq_some'.mp h
    rfl
  by_cases h22 : k = "vpn"
  · subst h22
    obtain ⟨s, -, rfl⟩ := Option.map_eq_some'.mp h
    rfl
  by_cases h23 : k = "vpnRoute"
  · subst h23
    obtain ⟨s, -, rfl⟩ := Option.map_eq_some'.mp h
    rfl
  by_cases h24 : k = "tuna"
  · subst h24
    obtain ⟨s, -, rfl⟩ := Option.map_eq_some'.mp h
    rfl
  by_cases h25 : k = "tunaMinBalance"
  · subst h25
    obtain ⟨s, -, rfl⟩ := Option.map_eq_some'.mp h
    rfl
  by_cases h26 : k = "tunaMaxPrice"
  · subst h26
    obtain ⟨s, -, rfl⟩ := Option.map_eq_some'.mp h
    rfl
  by_cases h27 : k = "tunaMinFee"
  · subst h27
    obtain ⟨s, -, rfl⟩ := Option.map_eq_some'.mp h
    rfl
  by_cases h28 : k = "tunaFeeRatio"
  · subst h28
    obtain ⟨s, -, rfl⟩ := Option.map_eq_some'.mp h
    rfl
  by_cases h29 : k = "tunaCountry"
  · subst h29
    obtain ⟨s, -, rfl⟩ := Option.map_eq_some'.mp h
    rfl
  by_cases h30 : k = "tunaServiceName"
  · subst h30
    obtain ⟨s, -, rfl⟩ := Option.map_eq_some'.mp h
    rfl
  by_cases h31 : k = "tunaAllowNknAddr"
  · subst h31
    obtain ⟨s, -, rfl⟩ := Option.map_eq_some'.mp h
    rfl
  by_cases h32 : k = "tunaDisallowNknAddr"
  · subst h32
    obtain ⟨s, -, rfl⟩ := Option.map_eq_some'.mp h
    rfl
  by_cases h33 : k = "tunaAllowIp"
  · subst h33
    obtain ⟨s, -, rfl⟩ := Option.map_eq_some'.mp h
    rfl
  by_cases h34 : k = "tunaDisallowIp"
  · subst h34
    obtain ⟨s, -, rfl⟩ := Option.map_eq_some'.mp h
    rfl
  by_cases h35 : k = "tunaDisableDownloadGeoDB"
  · subst h35
    obtain ⟨s, -, rfl⟩ := Option.map_eq_some'.mp h
    rfl
  by_cases h36 : k = "tunaGeoDBPath"
  · subst h36
    obtain ⟨s, -, rfl⟩ := Option.map_eq_some'.mp h
    rfl
  by_cases h37 : k = "tunaDisableMeasureBandwidth"
  · subst h37
    obtain ⟨s, -, rfl⟩ := Option.map_eq_some'.mp h
    rfl
  by_cases h38 : k = "tunaMeasureStoragePath"
  · subst h38
    obtain ⟨s, -, rfl⟩ := Option.map_eq_some'.mp h
    rfl
  by_cases h39 : k = "tunaMeasureBandwidthBytes"
  · subst h39
    obtain ⟨s, -, rfl⟩ := Option.map_eq_some'.mp h
    rfl
  by_cases h40 : k = "udp"
  · subst h40
    obtain ⟨s, -, rfl⟩ := Option.map_eq_some'.mp h
    rfl
  by_cases h41 : k = "udpIdleTime"
  · subst h41
    obtain ⟨s, -, rfl⟩ := Option.map_eq_some'.mp h
    rfl
  by_cases h42 : k = "adminIdentifier"
  · subst h42
    obtain ⟨s, -, rfl⟩ := Option.map_eq_some'.mp h
    rfl
  by_cases h43 : k = "adminHttpAddr"
  · subst h43
    obtain ⟨s, -, rfl⟩ := Option.map_eq_some'.mp h
    rfl
  by_cases h44 : k = "disableAdminHttpApi"
  · subst h44
    obtain ⟨s, -, rfl⟩ := Option.map_eq_some'.mp h
    rfl
  by_cases h45 : k = "webRootPath"
  · subst h45
    obtain ⟨s, -, rfl⟩ := Option.map_eq_some'.mp h
    rfl
  by_cases h46 : k = "tags"
  · subst h46
    obtain ⟨s, -, rfl⟩ := Option.map_eq_some'.mp h
    rfl
  by_cases h47 : k = "verbose"
  · subst h47
    obtain ⟨s, -, rfl⟩ := Option.map_eq_some'.mp h
    rfl
  by_cases h48 : k = "acceptAddrs"
  · subst h48
    obtain ⟨s, -, rfl⟩ := Option.map_eq_some'.mp h
    rfl
  by_cases h49 : k = "adminAddrs"
  · subst h49
    obtain ⟨s, -, rfl⟩ := Option.map_eq_some'.mp h
    rfl
  simp only [setField, h1, h2, h3, h4, h5, h6, h7, h8, h9, h10, h11, h12, h13, h14, h15, h16, h17, h18, h19, h20, h21, h22, h23, h24, h25, h26, h27, h28, h29, h30, h31, h32, h33, h34, h35, h36, h37, h38, h39, h40, h41, h42, h43, h44, h45, h46, h47, h48, h49, if_false, ite_false] at h
  cases Option.some.inj h
  rfl

lemma unmarshalFields_path :
    ∀ (l : List (String × JValue)) (c0 c1 : Config),
      unmarshalFields c0 l = some c1 → c1.path = c0.path := by
  intro l
  induction l with
  | nil =>
    intro c0 c1 h
    cases Option.some.inj h
    rfl
  | cons kv rest ih =>
    intro c0 c1 h
    obtain ⟨k, v⟩ := kv
    unfold unmarshalFields at h
    cases hs : setField c0 k v with
    | none => rw [hs] at h; simp at h
    | some cmid =>
      rw [hs] at h
      exact (ih cmid c1 h).trans (setField_path _ _ _ _ hs)

/-- Re-loading a path whose file holds the marshalled document of `c`
yields `c` itself. -/
lemma LoadOrNewConfig_doc (c : Config) (w : World)
    (h : w.file = .doc (marshalConfig c)) :
    LoadOrNewConfig c.path w = .ok (c, w) := by
  simp only [LoadOrNewConfig, h]
  rw [unmarshal_marshalConfig]

/-! Equation lemmas for the mutators (each method sets its field(s) and
then persists) and for `save` in the three relevant regimes. -/

lemma SetAcceptAddrs_eq (c : Config) (xs : List String) (w : World) :
    c.SetAcceptAddrs xs w
      = ({ c with AcceptAddrs := xs }, ({ c with AcceptAddrs := xs } : Config).save w) := rfl

lemma AddAcceptAddrs_eq (c : Config) (xs : List String) (w : World) :
    c.AddAcceptAddrs xs w
      = ({ c with AcceptAddrs := mergeStrings c.AcceptAddrs xs },
         ({ c with AcceptAddrs := mergeStrings c.AcceptAddrs xs } : Config).save w) := rfl

lemma RemoveAcceptAddrs_eq (c : Config) (xs : List String) (w : World) :
    c.RemoveAcceptAddrs xs w
      = ({ c with AcceptAddrs := removeStrings c.AcceptAddrs xs },
         ({ c with AcceptAddrs := removeStrings c.AcceptAddrs xs } : Config).save w) := rfl

lemma SetAdminAddrs_eq (c : Config) (xs : List String) (w : World) :
    c.SetAdminAddrs xs w
      = ({ c with AdminAddrs := xs }, ({ c with AdminAddrs := xs } : Config).save w) := rfl

lemma AddAdminAddrs_eq (c : Config) (xs : List String) (w : World) :
    c.AddAdminAddrs xs w
      = ({ c with AdminAddrs := mergeStrings c.AdminAddrs xs },
         ({ c with AdminAddrs := mergeStrings c.AdminAddrs xs } : Config).save w) := rfl

lemma RemoveAdminAddrs_eq (c : Config) (xs : List String) (w : World) :
    c.RemoveAdminAddrs xs w
      = ({ c with AdminAddrs := removeStrings c.AdminAddrs xs },
         ({ c with AdminAddrs := removeStrings c.AdminAddrs xs } : Config).save w) := rfl

lemma SetAdminHTTPAPI_eq (c : Config) (b : Bool) (w : World) :
    c.SetAdminHTTPAPI b w
      = ({ c with DisableAdminHTTPAPI := b },
         ({ c with DisableAdminHTTPAPI := b } : Config).save w) := rfl

lemma SetTunaConfig_eq (c : Config) (sn : String)
    (co an dn ai di : List String) (w : World) :
    c.SetTunaConfig sn co an dn ai di w
      = ({ c with
            TunaServiceName := sn
            TunaCountry := co
            TunaAllowNknAddr := an
            TunaDisallowNknAddr := dn
            TunaAllowIp := ai
            TunaDisallowIp := di },
         ({ c with
            TunaServiceName := sn
            TunaCountry := co
            TunaAllowNknAddr := an
            TunaDisallowNknAddr := dn
            TunaAllowIp := ai
            TunaDisallowIp := di } : Config).save w) := rfl

lemma save_eq_of_writeOk (c : Config) (w : World) (hp : c.path ≠ "")
    (hw : w.writeOk = true) :
    c.save w = ({ w with file := .doc (marshalConfig c) }, none) := by
  simp [Config.save, hp, hw]

lemma save_eq_of_writeFail (c : Config) (w : World) (hp : c.path ≠ "")
    (hw : w.writeOk = false) :
    c.save w = (w, some "write error") := by
  simp [Config.save, hp, hw]

lemma save_eq_of_noPath (c : Config) (w : World) (hp : c.path = "") :
    c.save w = (w, none) := by
  simp [Config.save, hp]

lemma SetSeed_eq_of_valid (c : Config) (w : World) (s : String)
    (h64 : s.data.length = 64) (hhex : ∀ ch ∈ s.data, (hexDigitVal ch).isSome) :
    c.SetSeed s w = ({ c with Seed := s }, ({ c with Seed := s } : Config).save w) := by
  obtain ⟨bs, hbs, hlen⟩ := hexDecode_ok s.data (by omega) hhex
  have h32 : bs.length = ed25519SeedSize := by
    simp only [ed25519SeedSize]
    omega
  simp [Config.SetSeed, hbs, h32]

/-- C1: for every inbound message of the admin server loop: a payload that
fails to decode yields no reply and the loop continues; a decoded payload
whose sender matches no adminAddrs pattern and whose token is invalid
yields no reply and the loop continues; a decoded payload whose sender
matches some pattern or whose token is valid is dispatched and exactly one
reply is sent back to the sender; the loop always proceeds to the
remaining messages. -/
theorem C1_admin_loop_spec (adminAddrs : List Re) (isValid : String → Bool)
    (handleRequest : rpcReq → String) (m : InMsg) (rest : List InMsg) :
    (m.Data = none → serverStep adminAddrs isValid handleRequest m = none) ∧
    (∀ req, m.Data = some req → matchRegex adminAddrs m.Src = false →
      isValid req.Token = false →
      serverStep adminAddrs isValid handleRequest m = none) ∧
    (∀ req, m.Data = some req →
      (matchRegex adminAddrs m.Src = true ∨ isValid req.Token = true) →
      serverStep adminAddrs isValid handleRequest m
        = some (m.Src, handleRequest req)) ∧
    serverLoop adminAddrs isValid handleRequest (m :: rest)
      = (serverStep adminAddrs isValid handleRequest m).toList
        ++ serverLoop adminAddrs isValid handleRequest rest := by
  refine ⟨?_, ?_, ?_, ?_⟩
  · intro h
    simp [serverStep, h]
  · intro req h hm ht
    simp [serverStep, h, hm, ht]
  · intro req h hor
    rcases hor with hm | ht
    · simp [serverStep, h, hm]
    · simp [serverStep, h, ht]
  · rw [serverLoop]
    cases serverStep adminAddrs isValid handleRequest m <;> simp

def c1AdminPats : List Re := [Re.chr 'a']

def c1IsValid : String → Bool := fun t => t == "secret-token"

def c1Handle : rpcReq → String := fun req => "ok:" ++ req.Params

def c1MsgMalformed : InMsg := { Src := "a", Data := none }

def c1MsgAuthorized : InMsg := { Src := "a", Data := some { Token := "", Params := "getinfo" } }

def c1MsgUnauthorized : InMsg := { Src := "z", Data := some { Token := "bad", Params := "x" } }

def c1MsgToken : InMsg := { Src := "z", Data := some { Token := "secret-token", Params := "3rd" } }

/-- C1 witness: a malformed message and an unauthorized message produce no
reply, an allow-listed sender and a valid-token sender each produce exactly
one reply, and the four-message trace yields exactly the two replies. -/
theorem C1_admin_loop_spec_witness :
    serverStep c1AdminPats c1IsValid c1Handle c1MsgMalformed = none ∧
    serverStep c1AdminPats c1IsValid c1Handle c1MsgUnauthorized = none ∧
    serverStep c1AdminPats c1IsValid c1Handle c1MsgAuthorized = some ("a", "ok:getinfo") ∧
    serverStep c1AdminPats c1IsValid c1Handle c1MsgToken = some ("z", "ok:3rd") ∧
    serverLoop c1AdminPats c1IsValid c1Handle
        [c1MsgMalformed, c1MsgAuthorized, c1MsgUnauthorized, c1MsgToken]
      = [("a", "ok:getinfo"), ("z", "ok:3rd")] := by
  refine ⟨(C1_admin_loop_spec c1AdminPats c1IsValid c1Handle c1MsgMalformed []).1 rfl,
    (C1_admin_loop_spec c1AdminPats c1IsValid c1Handle c1MsgUnauthorized []).2.1
      { Token := "bad", Params := "x" } rfl (by decide) (by decide),
    (C1_admin_loop_spec c1AdminPats c1IsValid c1Handle c1MsgAuthorized []).2.2.1
      { Token := "", Params := "getinfo" } rfl (Or.inl (by decide)),
    (C1_admin_loop_spec c1AdminPats c1IsValid c1Handle c1MsgToken []).2.2.1
      { Token := "secret-token", Params := "3rd" } rfl (Or.inr (by decide)),
    by decide⟩

/-- C2 (amended): AddAcceptAddrs/AddAdminAddrs set the stored list to the
ordered set-union (existing entries kept in order, argument entries not
already present appended in order); RemoveAcceptAddrs/RemoveAdminAddrs set
it to the order-preserving set-difference; provided the current stored
list contains no duplicates, the result of any add/remove contains no
duplicates. -/
theorem C2_add_remove_set_semantics (c : Config) (xs : List String) (w : World) :
    (∃ t, (c.AddAcceptAddrs xs w).1.AcceptAddrs = c.AcceptAddrs ++ t ∧
      t.Sublist xs ∧ ∀ x ∈ t, x ∉ c.AcceptAddrs) ∧
    (∀ x, x ∈ (c.AddAcceptAddrs xs w).1.AcceptAddrs ↔ x ∈ c.AcceptAddrs ∨ x ∈ xs) ∧
    (∃ t, (c.AddAdminAddrs xs w).1.AdminAddrs = c.AdminAddrs ++ t ∧
      t.Sublist xs ∧ ∀ x ∈ t, x ∉ c.AdminAddrs) ∧
    (∀ x, x ∈ (c.AddAdminAddrs xs w).1.AdminAddrs ↔ x ∈ c.AdminAddrs ∨ x ∈ xs) ∧
    (c.RemoveAcceptAddrs xs w).1.AcceptAddrs = c.AcceptAddrs.filter (fun s => s ∉ xs) ∧
    (c.RemoveAdminAddrs xs w).1.AdminAddrs = c.AdminAddrs.filter (fun s => s ∉ xs) ∧
    (c.AcceptAddrs.Nodup → (c.AddAcceptAddrs xs w).1.AcceptAddrs.Nodup) ∧
    (c.AcceptAddrs.Nodup → (c.RemoveAcceptAddrs xs w).1.AcceptAddrs.Nodup) ∧
    (c.AdminAddrs.Nodup → (c.AddAdminAddrs xs w).1.AdminAddrs.Nodup) ∧
    (c.AdminAddrs.Nodup → (c.RemoveAdminAddrs xs w).1.AdminAddrs.Nodup) := by
  have hA : (c.AddAcceptAddrs xs w).1.AcceptAddrs = mergeStrings c.AcceptAddrs xs := rfl
  have hB : (c.AddAdminAddrs xs w).1.AdminAddrs = mergeStrings c.AdminAddrs xs := rfl
  refine ⟨?_, ?_, ?_, ?_, rfl, rfl, ?_, ?_, ?_, ?_⟩
  · obtain ⟨t, h1, h2, h3, -⟩ := mergeStrings_charact xs c.AcceptAddrs
    exact ⟨t, hA.trans h1, h2, h3⟩
  · intro x
    rw [hA]
    exact mem_mergeStrings _ _ _
  · obtain ⟨t, h1, h2, h3, -⟩ := mergeStrings_charact xs c.AdminAddrs
    exact ⟨t, hB.trans h1, h2, h3⟩
  · intro x
    rw [hB]
    exact mem_mergeStrings _ _ _
  · intro h
    rw [hA]
    exact mergeStrings_nodup _ _ h
  · intro h
    exact removeStrings_nodup _ xs h
  · intro h
    rw [hB]
    exact mergeStrings_nodup _ _ h
  · intro h
    exact removeStrings_nodup _ xs h

/-- C2 counterexample: the claim quantifies over every current stored
list, but a stored list that already contains duplicates (reachable via
`SetAcceptAddrs`) keeps them across an add: after `AddAcceptAddrs ["b"]` on
stored `["a", "a"]` the list is `["a", "a", "b"]`, which has duplicates. -/
theorem C2_counterexample :
    (({ zeroConfig with AcceptAddrs := ["a", "a"] } : Config).AddAcceptAddrs ["b"]
        ⟨.absent, true⟩).1.AcceptAddrs = ["a", "a", "b"] ∧
    ¬ (({ zeroConfig with AcceptAddrs := ["a", "a"] } : Config).AddAcceptAddrs ["b"]
        ⟨.absent, true⟩).1.AcceptAddrs.Nodup := by
  refine ⟨by decide, by decide⟩

/-- C2 witness: the spec's example sequence — `AddAcceptAddrs ["a","b"]`
then `AddAcceptAddrs ["b","c"]` yields `["a","b","c"]`, then
`RemoveAcceptAddrs ["b"]` yields `["a","c"]` — and the duplicate-freedom
conclusion at a concrete duplicate-free starting list. -/
theorem C2_add_remove_set_semantics_witness :
    ((zeroConfig.AddAcceptAddrs ["a", "b"] ⟨.absent, true⟩).1.AddAcceptAddrs ["b", "c"]
        ⟨.absent, true⟩).1.AcceptAddrs = ["a", "b", "c"] ∧
    (((zeroConfig.AddAcceptAddrs ["a", "b"] ⟨.absent, true⟩).1.AddAcceptAddrs ["b", "c"]
        ⟨.absent, true⟩).1.RemoveAcceptAddrs ["b"] ⟨.absent, true⟩).1.AcceptAddrs
      = ["a", "c"] ∧
    (zeroConfig.AddAcceptAddrs ["a", "b"] ⟨.absent, true⟩).1.AcceptAddrs.Nodup := by
  exact ⟨by decide, by decide,
    (C2_add_remove_set_semantics zeroConfig ["a", "b"] ⟨.absent, true⟩).2.2.2.2.2.2.1
      (by decide)⟩

/-- C3: `SetSeed` rejects a non-hex string with a descriptive validation
error leaving memory and file untouched; rejects a hex string of wrong
decoded length likewise; and for a 64-hex-character string stores the seed
(readable back verbatim), succeeding whenever persistence does. -/
theorem C3_SetSeed_validation (c : Config) (w : World) (s : String) :
    (hexDecode s.data = none →
      c.SetSeed s w = (c, w, some "invalid seed string, should be a hex string")) ∧
    (∀ bs, hexDecode s.data = some bs → bs.length ≠ ed25519SeedSize →
      c.SetSeed s w = (c, w, some ("invalid seed string length "
        ++ toString s.length ++ ", should be " ++ toString (2 * ed25519SeedSize)))) ∧
    (s.data.length = 64 → (∀ ch ∈ s.data, (hexDigitVal ch).isSome) →
      (c.SetSeed s w).1 = { c with Seed := s } ∧
      (c.SetSeed s w).1.Seed = s ∧
      ((c.path = "" ∨ w.writeOk = true) → (c.SetSeed s w).2.2 = none)) := by
  refine ⟨?_, ?_, ?_⟩
  · intro h
    simp [Config.SetSeed, h]
  · intro bs hbs hlen
    simp [Config.SetSeed, hbs, hlen]
  · intro h64 hhex
    rw [SetSeed_eq_of_valid c w s h64 hhex]
    refine ⟨rfl, rfl, ?_⟩
    rcases Classical.em (({ c with Seed := s } : Config).path = "") with hp | hp
    · intro _
      rw [save_eq_of_noPath _ _ hp]
    · rintro (hc | hw)
      · exact absurd hc hp
      · rw [save_eq_of_writeOk _ _ hp hw]

def c3Seed64 : String := "0000000000000000000000000000000000000000000000000000000000000000"

/-- C3 witness: `SetSeed "not-hex"` fails with the hex validation error
and changes nothing; `SetSeed "00"` fails with the length error; a
64-hex-character seed is stored and reads back verbatim. -/
theorem C3_SetSeed_validation_witness :
    zeroConfig.SetSeed "not-hex" ⟨.absent, true⟩
      = (zeroConfig, ⟨.absent, true⟩, some "invalid seed string, should be a hex string") ∧
    zeroConfig.SetSeed "00" ⟨.absent, true⟩
      = (zeroConfig, ⟨.absent, true⟩, some "invalid seed string length 2, should be 64") ∧
    (zeroConfig.SetSeed c3Seed64 ⟨.absent, true⟩).1.Seed = c3Seed64 ∧
    (zeroConfig.SetSeed c3Seed64 ⟨.absent, true⟩).2.2 = none := by
  refine ⟨(C3_SetSeed_validation zeroConfig ⟨.absent, true⟩ "not-hex").1 (by decide),
    ?_, (C3_SetSeed_validation zeroConfig ⟨.absent, true⟩ c3Seed64).2.2
      (by decide) (by decide) |>.2.1,
    (C3_SetSeed_validation zeroConfig ⟨.absent, true⟩ c3Seed64).2.2
      (by decide) (by decide) |>.2.2 (Or.inl rfl)⟩
  have := (C3_SetSeed_validation zeroConfig ⟨.absent, true⟩ "00").2.1 [0] (by decide) (by decide)
  simpa using this

/-- C10: `SetAcceptAddrs`/`SetAdminAddrs` replace the stored list with the
argument verbatim — no deduplication, no reordering — and the persisted
document carries the same verbatim list, so duplicates in the argument
survive in memory and on disk. -/
theorem C10_set_replaces_verbatim (c : Config) (xs : List String) (w : World) :
    (c.SetAcceptAddrs xs w).1.AcceptAddrs = xs ∧
    (c.SetAdminAddrs xs w).1.AdminAddrs = xs ∧
    ("acceptAddrs", JValue.arr xs) ∈ marshalConfig (c.SetAcceptAddrs xs w).1 ∧
    ("adminAddrs", JValue.arr xs) ∈ marshalConfig (c.SetAdminAddrs xs w).1 ∧
    (c.path ≠ "" → w.writeOk = true →
      (c.SetAcceptAddrs xs w).2.1.file
          = .doc (marshalConfig { c with AcceptAddrs := xs }) ∧
      (c.SetAdminAddrs xs w).2.1.file
          = .doc (marshalConfig { c with AdminAddrs := xs })) := by
  refine ⟨rfl, rfl, ?_, ?_, ?_⟩
  · rw [show (c.SetAcceptAddrs xs w).1 = { c with AcceptAddrs := xs } from rfl]
    simp [marshalConfig]
  · rw [show (c.SetAdminAddrs xs w).1 = { c with AdminAddrs := xs } from rfl]
    simp [marshalConfig]
  · intro hp hw
    rw [SetAcceptAddrs_eq, SetAdminAddrs_eq]
    rw [save_eq_of_writeOk ({ c with AcceptAddrs := xs }) w hp hw,
      save_eq_of_writeOk ({ c with AdminAddrs := xs }) w hp hw]
    exact ⟨rfl, rfl⟩

/-- C10 witness: setting the duplicated list `["a","a"]` stores it
verbatim (still duplicated) and writes it verbatim to the file. -/
theorem C10_set_replaces_verbatim_witness :
    (({ zeroConfig with path := "config.json" } : Config).SetAcceptAddrs ["a", "a"]
        ⟨.absent, true⟩).1.AcceptAddrs = ["a", "a"] ∧
    ¬ (({ zeroConfig with path := "config.json" } : Config).SetAcceptAddrs ["a", "a"]
        ⟨.absent, true⟩).1.AcceptAddrs.Nodup ∧
    (({ zeroConfig with path := "config.json" } : Config).SetAcceptAddrs ["a", "a"]
        ⟨.absent, true⟩).2.1.file
      = .doc (marshalConfig { { zeroConfig with path := "config.json" } with
          AcceptAddrs := ["a", "a"] }) := by
  refine ⟨(C10_set_replaces_verbatim { zeroConfig with path := "config.json" } ["a", "a"]
      ⟨.absent, true⟩).1, by decide, ?_⟩
  exact ((C10_set_replaces_verbatim { zeroConfig with path := "config.json" } ["a", "a"]
      ⟨.absent, true⟩).2.2.2.2 (by decide) rfl).1
/-- One optional key of the persisted document: present exactly when the
field is not empty/zero. -/
def keyIf (omitted : Prop) [Decidable omitted] (k : String) : List String :=
  if omitted then [] else [k]

/-- The key sequence of the persisted document as the spec describes it:
the four non-optional keys always present, each `omitempty` key present
exactly when its field is non-empty/non-zero.  Stated from the spec (§6)
to compare against `marshalConfig`. -/
def specPersistedKeys (c : Config) : List String :=
  ["identifier", "seed"]
  ++ keyIf (c.SeedRPCServerAddr = []) "seedRPCServerAddr"
  ++ keyIf (c.ConnectRetries = 0) "connectRetries"
  ++ keyIf (c.Cipher = "") "cipher"
  ++ keyIf (c.Password = "") "password"
  ++ keyIf (c.DialTimeout = 0) "dialTimeout"
  ++ keyIf (c.SessionWindowSize = 0) "sessionWindowSize"
  ++ keyIf (c.LogFileName = "") "log"
  ++ keyIf (c.LogMaxSize = 0) "logMaxSize"
  ++ keyIf (c.LogMaxBackups = 0) "logMaxBackups"
  ++ keyIf (c.LogAPIResponseSize = 0) "logAPIResponseSize"
  ++ keyIf (c.RemoteAdminAddr = []) "remoteAdminAddr"
  ++ keyIf (c.RemoteTunnelAddr = []) "remoteTunnelAddr"
  ++ keyIf (c.LocalSocksAddr = "") "localSocksAddr"
  ++ keyIf (c.Tun = false) "tun"
  ++ keyIf (c.TunAddr = "") "tunAddr"
  ++ keyIf (c.TunGateway = "") "tunGateway"
  ++ keyIf (c.TunMask = "") "tunMask"
  ++ keyIf (c.TunDNS = []) "tunDNS"
  ++ keyIf (c.TunName = "") "tunName"
  ++ keyIf (c.VPN = false) "vpn"
  ++ keyIf (c.VPNRoute = []) "vpnRoute"
  ++ keyIf (c.Tuna = false) "tuna"
  ++ keyIf (c.TunaMinBalance = "") "tunaMinBalance"
  ++ keyIf (c.TunaMaxPrice = "") "tunaMaxPrice"
  ++ keyIf (c.TunaMinFee = "") "tunaMinFee"
  ++ keyIf (c.TunaFeeRatio = 0) "tunaFeeRatio"
  ++ keyIf (c.TunaCountry = []) "tunaCountry"
  ++ keyIf (c.TunaServiceName = "") "tunaServiceName"
  ++ keyIf (c.TunaAllowNknAddr = []) "tunaAllowNknAddr"
  ++ keyIf (c.TunaDisallowNknAddr = []) "tunaDisallowNknAddr"
  ++ keyIf (c.TunaAllowIp = []) "tunaAllowIp"
  ++ keyIf (c.TunaDisallowIp = []) "tunaDisallowIp"
  ++ keyIf (c.TunaDisableDownloadGeoDB = false) "tunaDisableDownloadGeoDB"
  ++ keyIf (c.TunaGeoDBPath = "") "tunaGeoDBPath"
  ++ keyIf (c.TunaDisableMeasureBandwidth = false) "tunaDisableMeasureBandwidth"
  ++ keyIf (c.TunaMeasureStoragePath = "") "tunaMeasureStoragePath"
  ++ keyIf (c.TunaMeasureBandwidthBytes = 0) "tunaMeasureBandwidthBytes"
  ++ keyIf (c.UDP = false) "udp"
  ++ keyIf (c.UDPIdleTime = 0) "udpIdleTime"
  ++ keyIf (c.AdminIdentifier = "") "adminIdentifier"
  ++ keyIf (c.AdminHTTPAddr = "") "adminHttpAddr"
  ++ keyIf (c.DisableAdminHTTPAPI = false) "disableAdminHttpApi"
  ++ keyIf (c.WebRootPath = "") "webRootPath"
  ++ keyIf (c.Tags = []) "tags"
  ++ keyIf (c.Verbose = false) "verbose"
  ++ ["acceptAddrs", "adminAddrs"]

/-- C6: `SetTunaConfig` updates exactly the six tuna identity fields to its
arguments in one atomic step (the whole update happens under one write-lock
acquisition in the source, modelled as a single function application), and
leaves every other config field unchanged. -/
theorem C6_SetTunaConfig_frame (c : Config) (w : World) (sn : String)
    (co an dn ai di : List String) :
    (c.SetTunaConfig sn co an dn ai di w).1.TunaServiceName = sn ∧
    (c.SetTunaConfig sn co an dn ai di w).1.TunaCountry = co ∧
    (c.SetTunaConfig sn co an dn ai di w).1.TunaAllowNknAddr = an ∧
    (c.SetTunaConfig sn co an dn ai di w).1.TunaDisallowNknAddr = dn ∧
    (c.SetTunaConfig sn co an dn ai di w).1.TunaAllowIp = ai ∧
    (c.SetTunaConfig sn co an dn ai di w).1.TunaDisallowIp = di ∧
    (c.SetTunaConfig sn co an dn ai di w).1.path = c.path ∧
    (c.SetTunaConfig sn co an dn ai di w).1.Identifier = c.Identifier ∧
    (c.SetTunaConfig sn co an dn ai di w).1.Seed = c.Seed ∧
    (c.SetTunaConfig sn co an dn ai di w).1.SeedRPCServerAddr = c.SeedRPCServerAddr ∧
    (c.SetTunaConfig sn co an dn ai di w).1.ConnectRetries = c.ConnectRetries ∧
    (c.SetTunaConfig sn co an dn ai di w).1.Cipher = c.Cipher ∧
    (c.SetTunaConfig sn co an dn ai di w).1.Password = c.Password ∧
    (c.SetTunaConfig sn co an dn ai di w).1.DialTimeout = c.DialTimeout ∧
    (c.SetTunaConfig sn co an dn ai di w).1.SessionWindowSize = c.SessionWindowSize ∧
    (c.SetTunaConfig sn co an dn ai di w).1.LogFileName = c.LogFileName ∧
    (c.SetTunaConfig sn co an dn ai di w).1.LogMaxSize = c.LogMaxSize ∧
    (c.SetTunaConfig sn co an dn ai di w).1.LogMaxBackups = c.LogMaxBackups ∧
    (c.SetTunaConfig sn co an dn ai di w).1.LogAPIResponseSize = c.LogAPIResponseSize ∧
    (c.SetTunaConfig sn co an dn ai di w).1.RemoteAdminAddr = c.RemoteAdminAddr ∧
    (c.SetTunaConfig sn co an dn ai di w).1.RemoteTunnelAddr = c.RemoteTunnelAddr ∧
    (c.SetTunaConfig sn co an dn ai di w).1.LocalSocksAddr = c.LocalSocksAddr ∧
    (c.SetTunaConfig sn co an dn ai di w).1.Tun = c.Tun ∧
    (c.SetTunaConfig sn co an dn ai di w).1.TunAddr = c.TunAddr ∧
    (c.SetTunaConfig sn co an dn ai di w).1.TunGateway = c.TunGateway ∧
    (c.SetTunaConfig sn co an dn ai di w).1.TunMask = c.TunMask ∧
    (c.SetTunaConfig sn co an dn ai di w).1.TunDNS = c.TunDNS ∧
    (c.SetTunaConfig sn co an dn ai di w).1.TunName = c.TunName ∧
    (c.SetTunaConfig sn co an dn ai di w).1.VPN = c.VPN ∧
    (c.SetTunaConfig sn co an dn ai di w).1.VPNRoute = c.VPNRoute ∧
    (c.SetTunaConfig sn co an dn ai di w).1.Tuna = c.Tuna ∧
    (c.SetTunaConfig sn co an dn ai di w).1.TunaMinBalance = c.TunaMinBalance ∧
    (c.SetTunaConfig sn co an dn ai di w).1.TunaMaxPrice = c.TunaMaxPrice ∧
    (c.SetTunaConfig sn co an dn ai di w).1.TunaMinFee = c.TunaMinFee ∧
    (c.SetTunaConfig sn co an dn ai di w).1.TunaFeeRatio = c.TunaFeeRatio ∧
    (c.SetTunaConfig sn co an dn ai di w).1.TunaDisableDownloadGeoDB = c.TunaDisableDownloadGeoDB ∧
    (c.SetTunaConfig sn co an dn ai di w).1.TunaGeoDBPath = c.TunaGeoDBPath ∧
    (c.SetTunaConfig sn co an dn ai di w).1.TunaDisableMeasureBandwidth = c.TunaDisableMeasureBandwidth ∧
    (c.SetTunaConfig sn co an dn ai di w).1.TunaMeasureStoragePath = c.TunaMeasureStoragePath ∧
    (c.SetTunaConfig sn co an dn ai di w).1.TunaMeasureBandwidthBytes = c.TunaMeasureBandwidthBytes ∧
    (c.SetTunaConfig sn co an dn ai di w).1.UDP = c.UDP ∧
    (c.SetTunaConfig sn co an dn ai di w).1.UDPIdleTime = c.UDPIdleTime ∧
    (c.SetTunaConfig sn co an dn ai di w).1.AdminIdentifier = c.AdminIdentifier ∧
    (c.SetTunaConfig sn co an dn ai di w).1.AdminHTTPAddr = c.AdminHTTPAddr ∧
    (c.SetTunaConfig sn co an dn ai di w).1.DisableAdminHTTPAPI = c.DisableAdminHTTPAPI ∧
    (c.SetTunaConfig sn co an dn ai di w).1.WebRootPath = c.WebRootPath ∧
    (c.SetTunaConfig sn co an dn ai di w).1.Tags = c.Tags ∧
    (c.SetTunaConfig sn co an dn ai di w).1.Verbose = c.Verbose ∧
    (c.SetTunaConfig sn co an dn ai di w).1.AcceptAddrs = c.AcceptAddrs ∧
    (c.SetTunaConfig sn co an dn ai di w).1.AdminAddrs = c.AdminAddrs := by
  exact ⟨rfl, rfl, rfl, rfl, rfl, rfl, rfl, rfl, rfl, rfl, rfl, rfl, rfl, rfl, rfl, rfl, rfl, rfl, rfl, rfl, rfl, rfl, rfl, rfl, rfl, rfl, rfl, rfl, rfl, rfl, rfl, rfl, rfl, rfl, rfl, rfl, rfl, rfl, rfl, rfl, rfl, rfl, rfl, rfl, rfl, rfl, rfl, rfl, rfl, rfl⟩

lemma unm_marshal_self (c2 : Config) :
    unmarshalFields { zeroConfig with path := c2.path } (marshalConfig c2)
      = some c2 :=
  unmarshal_marshalConfig c2 c2.path

/-- After a successful persist, the triple a mutator returns satisfies
write-through: no error, the file holds the marshalled in-memory config,
decoding that document restores the in-memory config, and re-loading the
bound path returns it unchanged. -/
def writeThrough (res : Config × World × Option String) : Prop :=
  res.2.2 = none ∧
  res.2.1.file = FileContents.doc (marshalConfig res.1) ∧
  unmarshalFields { zeroConfig with path := res.1.path } (marshalConfig res.1)
    = some res.1 ∧
  LoadOrNewConfig res.1.path res.2.1 = .ok (res.1, res.2.1)

lemma writeThrough_of_save (c2 : Config) (w : World) (hp : c2.path ≠ "")
    (hw : w.writeOk = true) : writeThrough (c2, c2.save w) := by
  unfold writeThrough
  rw [save_eq_of_writeOk c2 w hp hw]
  exact ⟨rfl, rfl, unm_marshal_self c2, LoadOrNewConfig_doc c2 _ rfl⟩

/-- C4: bootstrapping an absent path persists a config whose file decodes
back to the in-memory value and whose second load returns the same config;
and after every successful setter, decoding the bytes written to the file
yields the in-memory config (re-loading the path returns it). -/
theorem C4_write_through (p : String) (c : Config) (w : World) (xs : List String)
    (b : Bool) (sn : String) (l1 l2 l3 l4 l5 : List String) (s : String) :
    (w.file = .absent → w.writeOk = true → p ≠ "" →
      LoadOrNewConfig p w
        = .ok ({ NewConfig with path := p },
               { w with file := .doc (marshalConfig { NewConfig with path := p }) }) ∧
      unmarshalFields { zeroConfig with path := p }
          (marshalConfig { NewConfig with path := p })
        = some { NewConfig with path := p } ∧
      LoadOrNewConfig p
          { w with file := .doc (marshalConfig { NewConfig with path := p }) }
        = .ok ({ NewConfig with path := p },
               { w with file := .doc (marshalConfig { NewConfig with path := p }) })) ∧
    (c.path ≠ "" → w.writeOk = true →
      writeThrough (c.SetAcceptAddrs xs w) ∧
      writeThrough (c.AddAcceptAddrs xs w) ∧
      writeThrough (c.RemoveAcceptAddrs xs w) ∧
      writeThrough (c.SetAdminAddrs xs w) ∧
      writeThrough (c.AddAdminAddrs xs w) ∧
      writeThrough (c.RemoveAdminAddrs xs w) ∧
      writeThrough (c.SetAdminHTTPAPI b w) ∧
      writeThrough (c.SetTunaConfig sn l1 l2 l3 l4 l5 w) ∧
      (s.data.length = 64 → (∀ ch ∈ s.data, (hexDigitVal ch).isSome) →
        writeThrough (c.SetSeed s w))) := by
  constructor
  · intro hf hw hp
    have hsave := save_eq_of_writeOk ({ NewConfig with path := p } : Config) w hp hw
    refine ⟨?_, unmarshal_marshalConfig _ p, ?_⟩
    · simp only [LoadOrNewConfig, hf, hsave]
    · exact LoadOrNewConfig_doc ({ NewConfig with path := p } : Config) _ rfl
  · intro hp hw
    refine ⟨writeThrough_of_save { c with AcceptAddrs := xs } w hp hw,
      writeThrough_of_save { c with AcceptAddrs := mergeStrings c.AcceptAddrs xs } w hp hw,
      writeThrough_of_save { c with AcceptAddrs := removeStrings c.AcceptAddrs xs } w hp hw,
      writeThrough_of_save { c with AdminAddrs := xs } w hp hw,
      writeThrough_of_save { c with AdminAddrs := mergeStrings c.AdminAddrs xs } w hp hw,
      writeThrough_of_save { c with AdminAddrs := removeStrings c.AdminAddrs xs } w hp hw,
      writeThrough_of_save { c with DisableAdminHTTPAPI := b } w hp hw,
      writeThrough_of_save { c with
            TunaServiceName := sn
            TunaCountry := l1
            TunaAllowNknAddr := l2
            TunaDisallowNknAddr := l3
            TunaAllowIp := l4
            TunaDisallowIp := l5 } w hp hw, ?_⟩
    intro h64 hhex
    rw [SetSeed_eq_of_valid c w s h64 hhex]
    exact writeThrough_of_save { c with Seed := s } w hp hw

/-- C4 witness: concrete bootstrap on an absent path and concrete
write-through of a setter on a bound path. -/
theorem C4_write_through_witness :
    LoadOrNewConfig "config.json" ⟨.absent, true⟩
      = .ok ({ NewConfig with path := "config.json" },
             ⟨.doc (marshalConfig { NewConfig with path := "config.json" }), true⟩) ∧
    writeThrough (({ zeroConfig with path := "config.json" } : Config).SetAcceptAddrs
      ["a"] ⟨.absent, true⟩) := by
  refine ⟨?_, ?_⟩
  · exact ((C4_write_through "config.json" zeroConfig ⟨.absent, true⟩ [] false "" [] [] [] []
      [] "").1 rfl rfl (by decide)).1
  · exact ((C4_write_through "config.json" { zeroConfig with path := "config.json" }
      ⟨.absent, true⟩ ["a"] false "" [] [] [] [] [] "").2 (by decide) rfl).1

/-- C5: when the disk write fails, every mutator returns the persistence
error while the in-memory field already holds the new value (the change is
reported as failed, not rolled back), and the file is left as it was. -/
theorem C5_persist_error_not_rolled_back (c : Config) (w : World) (xs : List String)
    (b : Bool) (sn : String) (l1 l2 l3 l4 l5 : List String) (s : String)
    (hp : c.path ≠ "") (hw : w.writeOk = false) :
    c.SetAcceptAddrs xs w = ({ c with AcceptAddrs := xs }, w, some "write error") ∧
    c.AddAcceptAddrs xs w
      = ({ c with AcceptAddrs := mergeStrings c.AcceptAddrs xs }, w, some "write error") ∧
    c.RemoveAcceptAddrs xs w
      = ({ c with AcceptAddrs := removeStrings c.AcceptAddrs xs }, w, some "write error") ∧
    c.SetAdminAddrs xs w = ({ c with AdminAddrs := xs }, w, some "write error") ∧
    c.AddAdminAddrs xs w
      = ({ c with AdminAddrs := mergeStrings c.AdminAddrs xs }, w, some "write error") ∧
    c.RemoveAdminAddrs xs w
      = ({ c with AdminAddrs := removeStrings c.AdminAddrs xs }, w, some "write error") ∧
    c.SetAdminHTTPAPI b w
      = ({ c with DisableAdminHTTPAPI := b }, w, some "write error") ∧
    c.SetTunaConfig sn l1 l2 l3 l4 l5 w
      = ({ c with
            TunaServiceName := sn
            TunaCountry := l1
            TunaAllowNknAddr := l2
            TunaDisallowNknAddr := l3
            TunaAllowIp := l4
            TunaDisallowIp := l5 }, w, some "write error") ∧
    (s.data.length = 64 → (∀ ch ∈ s.data, (hexDigitVal ch).isSome) →
      c.SetSeed s w = ({ c with Seed := s }, w, some "write error")) := by
  refine ⟨?_, ?_, ?_, ?_, ?_, ?_, ?_, ?_, ?_⟩
  · rw [SetAcceptAddrs_eq, save_eq_of_writeFail { c with AcceptAddrs := xs } w hp hw]
  · rw [AddAcceptAddrs_eq,
      save_eq_of_writeFail { c with AcceptAddrs := mergeStrings c.AcceptAddrs xs } w hp hw]
  · rw [RemoveAcceptAddrs_eq,
      save_eq_of_writeFail { c with AcceptAddrs := removeStrings c.AcceptAddrs xs } w hp hw]
  · rw [SetAdminAddrs_eq, save_eq_of_writeFail { c with AdminAddrs := xs } w hp hw]
  · rw [AddAdminAddrs_eq,
      save_eq_of_writeFail { c with AdminAddrs := mergeStrings c.AdminAddrs xs } w hp hw]
  · rw [RemoveAdminAddrs_eq,
      save_eq_of_writeFail { c with AdminAddrs := removeStrings c.AdminAddrs xs } w hp hw]
  · rw [SetAdminHTTPAPI_eq,
      save_eq_of_writeFail { c with DisableAdminHTTPAPI := b } w hp hw]
  · rw [SetTunaConfig_eq,
      save_eq_of_writeFail { c with
            TunaServiceName := sn
            TunaCountry := l1
            TunaAllowNknAddr := l2
            TunaDisallowNknAddr := l3
            TunaAllowIp := l4
            TunaDisallowIp := l5 } w hp hw]
  · intro h64 hhex
    rw [SetSeed_eq_of_valid c w s h64 hhex,
      save_eq_of_writeFail { c with Seed := s } w hp hw]

/-- C5 witness: on a bound path with a failing disk, `SetAcceptAddrs` and a
valid `SetSeed` both report the write error while memory holds the new
value. -/
theorem C5_persist_error_witness :
    ({ zeroConfig with path := "config.json" } : Config).SetAcceptAddrs ["a"]
        ⟨.absent, false⟩
      = ({ zeroConfig with path := "config.json", AcceptAddrs := ["a"] },
         ⟨.absent, false⟩, some "write error") ∧
    ({ zeroConfig with path := "config.json" } : Config).SetSeed c3Seed64
        ⟨.absent, false⟩
      = ({ zeroConfig with path := "config.json", Seed := c3Seed64 },
         ⟨.absent, false⟩, some "write error") := by
  refine ⟨(C5_persist_error_not_rolled_back { zeroConfig with path := "config.json" }
      ⟨.absent, false⟩ ["a"] false "" [] [] [] [] [] "" (by decide) rfl).1, ?_⟩
  exact (C5_persist_error_not_rolled_back { zeroConfig with path := "config.json" }
      ⟨.absent, false⟩ [] false "" [] [] [] [] [] c3Seed64 (by decide) rfl).2.2.2.2.2.2.2.2
      (by decide) (by decide)

/-- C7: `LoadOrNewConfig` on an absent path constructs the default config
(empty accept/admin lists) bound to the path, persists it immediately and
returns it; on malformed contents it fails with a decode error and returns
no config; on decodable contents it returns the decoded config bound to
the path. -/
theorem C7_LoadOrNewConfig_spec (p : String) (w : World) (d : List (String × JValue)) :
    (w.file = .absent → w.writeOk = true → p ≠ "" →
      LoadOrNewConfig p w
        = .ok ({ NewConfig with path := p },
               { w with file := .doc (marshalConfig { NewConfig with path := p }) }) ∧
      NewConfig.AcceptAddrs = [] ∧ NewConfig.AdminAddrs = []) ∧
    (w.file = .malformed → LoadOrNewConfig p w = .error "decode error") ∧
    (w.file = .doc d →
      (∀ c0, unmarshalFields { zeroConfig with path := p } d = some c0 →
        LoadOrNewConfig p w = .ok (c0, w) ∧ c0.path = p) ∧
      (unmarshalFields { zeroConfig with path := p } d = none →
        LoadOrNewConfig p w = .error "decode error")) := by
  refine ⟨?_, ?_, ?_⟩
  · intro hf hw hp
    have hsave := save_eq_of_writeOk ({ NewConfig with path := p } : Config) w hp hw
    exact ⟨by simp only [LoadOrNewConfig, hf, hsave], rfl, rfl⟩
  · intro hf
    simp only [LoadOrNewConfig, hf]
  · intro hf
    constructor
    · intro c0 hc0
      refine ⟨by simp only [LoadOrNewConfig, hf, hc0], ?_⟩
      exact unmarshalFields_path d _ c0 hc0
    · intro hnone
      simp only [LoadOrNewConfig, hf, hnone]

/-- C7 witness: concrete absent-path bootstrap, concrete malformed-file
failure, and concrete decode of an empty JSON document. -/
theorem C7_LoadOrNewConfig_spec_witness :
    LoadOrNewConfig "config.json" ⟨.absent, true⟩
      = .ok ({ NewConfig with path := "config.json" },
             ⟨.doc (marshalConfig { NewConfig with path := "config.json" }), true⟩) ∧
    LoadOrNewConfig "config.json" ⟨.malformed, true⟩ = .error "decode error" ∧
    LoadOrNewConfig "config.json" ⟨.doc [], true⟩
      = .ok ({ zeroConfig with path := "config.json" }, ⟨.doc [], true⟩) := by
  refine ⟨((C7_LoadOrNewConfig_spec "config.json" ⟨.absent, true⟩ []).1 rfl rfl
      (by decide)).1,
    (C7_LoadOrNewConfig_spec "config.json" ⟨.malformed, true⟩ []).2.1 rfl, ?_⟩
  exact (((C7_LoadOrNewConfig_spec "config.json" ⟨.doc [], true⟩ []).2.2 rfl).1
    { zeroConfig with path := "config.json" } rfl).1

lemma marshalConfig_keys (c : Config) :
    (marshalConfig c).map Prod.fst = specPersistedKeys c := by
  simp only [marshalConfig, specPersistedKeys, keyIf, optStr, optNum, optBool, optArr,
    List.map_append, apply_ite (List.map (@Prod.fst String JValue)),
    List.map_cons, List.map_nil]

/-- C8 (amended): every persist writes the single JSON document for the
config, indented with a one-space unit per nesting level, with permission
bits 0666 handed to the file write (read and write for owner, group and
other, subject to the process umask), and with every `omitempty` field
omitted exactly when it is empty/zero. -/
theorem C8_save_format (c : Config) (w : World) (hp : c.path ≠ "")
    (hw : w.writeOk = true) :
    c.save w = ({ w with file := .doc (marshalConfig c) }, none) ∧
    (marshalConfig c).map Prod.fst = specPersistedKeys c ∧
    configIndentUnit = " " ∧
    configFilePerm = 0o666 := by
  exact ⟨save_eq_of_writeOk c w hp hw, marshalConfig_keys c, rfl, rfl⟩

/-- C8 counterexample: the permission bits passed to `os.WriteFile` are
0666, which also grant group and other write permission; they are not
"owner read/write and group/other read only" (0644). -/
theorem C8_counterexample :
    configFilePerm ≠ 0o644 ∧ Nat.land configFilePerm 0o022 ≠ 0 := by decide

/-- C8 witness: concrete save on a bound path writes the marshalled
document with the stated indent unit and permission bits. -/
theorem C8_save_format_witness :
    ({ zeroConfig with path := "config.json" } : Config).save ⟨.absent, true⟩
      = (⟨.doc (marshalConfig { zeroConfig with path := "config.json" }), true⟩, none) ∧
    configIndentUnit = " " ∧ configFilePerm = 438 := by
  obtain ⟨h1, -, h3, h4⟩ := C8_save_format { zeroConfig with path := "config.json" }
    ⟨.absent, true⟩ (by decide) rfl
  exact ⟨h1, h3, h4⟩

/-- C9: with no bound file path, persistence is a no-op that succeeds:
every mutator (and `Save`) applies its in-memory change and returns no
error, leaving the file untouched. -/
theorem C9_no_path_persistence_noop (c : Config) (w : World) (xs : List String)
    (b : Bool) (sn : String) (l1 l2 l3 l4 l5 : List String) (s : String)
    (hp : c.path = "") :
    c.Save w = (w, none) ∧
    c.SetAcceptAddrs xs w = ({ c with AcceptAddrs := xs }, w, none) ∧
    c.AddAcceptAddrs xs w
      = ({ c with AcceptAddrs := mergeStrings c.AcceptAddrs xs }, w, none) ∧
    c.RemoveAcceptAddrs xs w
      = ({ c with AcceptAddrs := removeStrings c.AcceptAddrs xs }, w, none) ∧
    c.SetAdminAddrs xs w = ({ c with AdminAddrs := xs }, w, none) ∧
    c.AddAdminAddrs xs w
      = ({ c with AdminAddrs := mergeStrings c.AdminAddrs xs }, w, none) ∧
    c.RemoveAdminAddrs xs w
      = ({ c with AdminAddrs := removeStrings c.AdminAddrs xs }, w, none) ∧
    c.SetAdminHTTPAPI b w = ({ c with DisableAdminHTTPAPI := b }, w, none) ∧
    c.SetTunaConfig sn l1 l2 l3 l4 l5 w
      = ({ c with
            TunaServiceName := sn
            TunaCountry := l1
            TunaAllowNknAddr := l2
            TunaDisallowNknAddr := l3
            TunaAllowIp := l4
            TunaDisallowIp := l5 }, w, none) ∧
    (s.data.length = 64 → (∀ ch ∈ s.data, (hexDigitVal ch).isSome) →
      c.SetSeed s w = ({ c with Seed := s }, w, none)) := by
  refine ⟨?_, ?_, ?_, ?_, ?_, ?_, ?_, ?_, ?_, ?_⟩
  · rw [Config.Save, save_eq_of_noPath c w hp]
  · rw [SetAcceptAddrs_eq, save_eq_of_noPath { c with AcceptAddrs := xs } w hp]
  · rw [AddAcceptAddrs_eq,
      save_eq_of_noPath { c with AcceptAddrs := mergeStrings c.AcceptAddrs xs } w hp]
  · rw [RemoveAcceptAddrs_eq,
      save_eq_of_noPath { c with AcceptAddrs := removeStrings c.AcceptAddrs xs } w hp]
  · rw [SetAdminAddrs_eq, save_eq_of_noPath { c with AdminAddrs := xs } w hp]
  · rw [AddAdminAddrs_eq,
      save_eq_of_noPath { c with AdminAddrs := mergeStrings c.AdminAddrs xs } w hp]
  · rw [RemoveAdminAddrs_eq,
      save_eq_of_noPath { c with AdminAddrs := removeStrings c.AdminAddrs xs } w hp]
  · rw [SetAdminHTTPAPI_eq, save_eq_of_noPath { c with DisableAdminHTTPAPI := b } w hp]
  · rw [SetTunaConfig_eq,
      save_eq_of_noPath { c with
            TunaServiceName := sn
            TunaCountry := l1
            TunaAllowNknAddr := l2
            TunaDisallowNknAddr := l3
            TunaAllowIp := l4
            TunaDisallowIp := l5 } w hp]
  · intro h64 hhex
    rw [SetSeed_eq_of_valid c w s h64 hhex, save_eq_of_noPath { c with Seed := s } w hp]

/-- C9 witness: a fresh in-memory config (no bound path) applies a setter
and an explicit `Save` without error, leaving the file world untouched. -/
theorem C9_no_path_persistence_noop_witness :
    zeroConfig.SetAcceptAddrs ["a"] ⟨.absent, false⟩
      = ({ zeroConfig with AcceptAddrs := ["a"] }, ⟨.absent, false⟩, none) ∧
    zeroConfig.Save ⟨.absent, false⟩ = (⟨.absent, false⟩, none) := by
  obtain ⟨h1, h2, -⟩ := C9_no_path_persistence_noop zeroConfig ⟨.absent, false⟩ ["a"]
    false "" [] [] [] [] [] "" rfl
  exact ⟨h2, h1⟩
